import Mathlib

/-!
Verification development for the eno-world-simulation repository.

The agent need/decision engine and the multi-world batch scheduler are
shallowly embedded: Rust `f32` scalars become `ℚ` (all deltas and thresholds
in the source are small decimal constants, exactly representable), `u32`/`u64`
become `ℕ`, fallible reducers return `Except String`.  Definitions follow
`src/world-simulation/src` (systems/needs.rs, systems/priorities.rs,
systems/modifiers.rs, reducers/individual.rs, scheduler.rs) line by line;
database-table plumbing becomes explicit list/state parameters.
-/

namespace EnoSim

set_option maxRecDepth 200000

/-- Clamp a rational into `[lo, hi]`, modelling Rust `f32::clamp`. -/
def rclamp (lo hi x : ℚ) : ℚ := max lo (min hi x)

/-- Specialized roles of an individual (types.rs `SpecializedRole`). -/
inductive SpecializedRole
  | None | Artist | Scientist | Leader | Educator | Healer
  deriving DecidableEq, Repr

/-- Payload carried by non-idle statuses (types.rs `StatusData`). -/
structure StatusData where
  until_hour : ℕ
  target_location : Option ℕ
  target_building : Option ℕ
  deriving DecidableEq, Repr

/-- Agent activity status (types.rs `IndividualStatus`). -/
inductive IndividualStatus
  | Working (d : StatusData)
  | Sleeping (d : StatusData)
  | Eating (d : StatusData)
  | Socializing (d : StatusData)
  | InTransit (d : StatusData)
  | Maintaining (d : StatusData)
  | UsingFacilities (d : StatusData)
  | Idle
  deriving DecidableEq, Repr

/-- The five fundamental needs (types.rs `FundamentalNeed`). -/
inductive FundamentalNeed
  | Environment | Consumption | Connection | Rest | Waste
  deriving DecidableEq, Repr

/-- Actions an individual can take (types.rs `IndividualAction`). -/
inductive IndividualAction
  | Move (to_location : ℕ)
  | Work | Sleep | Eat | Socialize | UseFacilities
  | MaintainBuilding | CleanBuilding | PayRent
  | AttendEvent | CreateArt | Research
  deriving DecidableEq, Repr

/-- An agent record (tables/individual.rs `Individual`; the `name` string is
irrelevant to every claim and omitted). -/
structure Individual where
  id : ℕ
  age : ℕ
  current_location_id : ℕ
  home_id : Option ℕ
  workplace_id : Option ℕ
  food_water : ℚ
  environment : ℚ
  intimacy : ℚ
  rest : ℚ
  waste : ℚ
  threat : ℚ
  income : ℚ
  stress : ℚ
  safety : ℚ
  relationship : ℚ
  social_interaction : ℚ
  community : ℚ
  achievements : ℚ
  progression : ℚ
  specialized_role : SpecializedRole
  status : IndividualStatus
  last_update_hour : ℕ
  birth_hour : ℕ
  deriving DecidableEq, Repr

/-- A building record (tables/building.rs `Building`; the `name`, economic
and `building_type` fields are irrelevant to every claim and omitted). -/
structure Building where
  id : ℕ
  city_id : ℕ
  location_x : ℚ
  location_y : ℚ
  maintenance : ℚ
  cleanliness : ℚ
  efficiency_level : ℕ
  prestige_level : ℕ
  current_occupants : ℕ
  max_capacity : ℕ
  deriving DecidableEq, Repr

/-- Location capability flags (tables/building.rs `LocationCapability`). -/
structure LocationCapability where
  id : ℕ
  building_id : ℕ
  provides_food : Bool
  provides_rest : Bool
  provides_social : Bool
  provides_facilities : Bool
  provides_healthcare : Bool
  provides_culture : Bool
  provides_education : Bool
  provides_work : Bool
  environmental_quality : ℚ
  deriving DecidableEq, Repr

/-! Constants from systems/modifiers.rs. -/

namespace individual_depletion

def FOOD_WATER_BASE : ℚ := -2
def FOOD_WATER_WORKING : ℚ := -3
def FOOD_WATER_RESTING : ℚ := -1.5
def ENVIRONMENT_BASE : ℚ := -1
def ENVIRONMENT_HAZARDOUS : ℚ := -3
def ENVIRONMENT_NEUTRAL : ℚ := -1
def ENVIRONMENT_HEALING : ℚ := 0.5
def INTIMACY_BASE : ℚ := -0.5
def REST_BASE : ℚ := -1.5
def REST_SLEEPING : ℚ := 8
def REST_WORKING : ℚ := -2.5
def WASTE_BASE : ℚ := 2
def WASTE_FACILITIES : ℚ := -50
def THREAT_BASE : ℚ := -0.5
def THREAT_DANGEROUS : ℚ := -2
def THREAT_SAFE_BUILDING : ℚ := 0.5
def INCOME_LIVING_COST : ℚ := -0.2
def INCOME_WORKING : ℚ := 5
def INCOME_UNEMPLOYED : ℚ := -0.5
def STRESS_BASE : ℚ := -0.3
def STRESS_HIGH_WORKLOAD : ℚ := -1
def STRESS_RECREATION : ℚ := 2
def STRESS_LOW_INCOME : ℚ := -0.5
def STRESS_TO_REST_FACTOR : ℚ := -0.1
def SAFETY_BASE : ℚ := -0.2
def SAFETY_AT_HOME : ℚ := 1
def SAFETY_SAFE_LOCATION : ℚ := 0.5
def SAFETY_UNSAFE_AREA : ℚ := -2
def COMMUNITY_BASE : ℚ := -0.3
def COMMUNITY_EVENT : ℚ := 3
def PROGRESSION_MEANINGFUL_WORK : ℚ := 0.5

end individual_depletion

namespace actions

def MOVE_REST_COST : ℚ := -2
def WORK_DURATION : ℕ := 8
def WORK_REST_COST : ℚ := -16
def WORK_STRESS_GAIN : ℚ := 5
def WORK_INCOME_GAIN : ℚ := 40
def SLEEP_DURATION : ℕ := 8
def SLEEP_REST_GAIN : ℚ := 64
def EAT_DURATION : ℕ := 1
def EAT_FOOD_GAIN : ℚ := 25
def SOCIALIZE_DURATION : ℕ := 2
def SOCIALIZE_SOCIAL_GAIN : ℚ := 10
def SOCIALIZE_STRESS_LOSS : ℚ := -5
def MAINTAIN_DURATION : ℕ := 4
def CLEAN_DURATION : ℕ := 2

end actions

namespace thresholds

def NEED_MAX : ℚ := 100
def NEED_CRITICAL_LOW : ℚ := 20
def NEED_CRITICAL_HIGH : ℚ := 80
def NEED_ADEQUATE : ℚ := 50
def NEED_URGENT : ℚ := 60
def INCOME_MAX : ℚ := 1000
def INCOME_CRITICAL : ℚ := 10
def WASTE_CRITICAL : ℚ := 80
def STRESS_CRITICAL : ℚ := 70

end thresholds

namespace priority_weights

def WASTE_HIGH : ℚ := 10
def FOOD_CRITICAL : ℚ := 8
def REST_CRITICAL : ℚ := 7
def SAFETY_LOW : ℚ := 6
def INCOME_CRITICAL : ℚ := 5
def ENVIRONMENT_LOW : ℚ := 4
def STRESS_HIGH : ℚ := 3
def SOCIAL_NEEDS : ℚ := 2
def HIGHER_NEEDS : ℚ := 1

end priority_weights

namespace Individual

/-- Average adequacy of Level 1 needs (needs.rs `get_level_1_adequacy`). -/
def get_level_1_adequacy (i : Individual) : ℚ :=
  (i.food_water + i.environment + i.intimacy + i.rest + (100 - i.waste)) / 5

/-- Average adequacy of Level 2 needs (needs.rs `get_level_2_adequacy`;
the source adds `safety` twice and never reads `income`). -/
def get_level_2_adequacy (i : Individual) : ℚ :=
  (i.safety + (100 - i.threat) + i.safety + (100 - i.stress)) / 4

/-- Average adequacy of Level 3 needs (needs.rs `get_level_3_adequacy`). -/
def get_level_3_adequacy (i : Individual) : ℚ :=
  (i.relationship + i.social_interaction + i.community) / 3

/-- Level 4 adequacy (needs.rs `get_level_4_adequacy`). -/
def get_level_4_adequacy (i : Individual) : ℚ := i.achievements

/-- Tier gating (needs.rs `is_need_level_active`). -/
def is_need_level_active (i : Individual) (level : ℕ) : Bool :=
  match level with
  | 1 => true
  | 2 => thresholds.NEED_ADEQUATE ≤ i.get_level_1_adequacy
  | 3 => i.is_need_level_active 2 && thresholds.NEED_ADEQUATE ≤ i.get_level_2_adequacy
  | 4 => i.is_need_level_active 3 && thresholds.NEED_ADEQUATE ≤ i.get_level_3_adequacy
  | 5 => i.is_need_level_active 4 && thresholds.NEED_ADEQUATE ≤ i.get_level_4_adequacy
  | _ => false

/-- Needs decay/growth for food and water (needs.rs `update_food_water`). -/
def update_food_water (hours_passed : ℕ) (i : Individual) : Individual :=
  let depletion := match i.status with
    | IndividualStatus.Working _ => individual_depletion.FOOD_WATER_WORKING
    | IndividualStatus.Sleeping _ => individual_depletion.FOOD_WATER_RESTING
    | _ => individual_depletion.FOOD_WATER_BASE
  let v := rclamp 0 thresholds.NEED_MAX (i.food_water + depletion * (hours_passed : ℚ))
  { i with food_water := v }

/-- Needs decay/growth for environment (needs.rs `update_environment`). -/
def update_environment (hours_passed : ℕ) (loc : LocationCapability)
    (i : Individual) : Individual :=
  let depletion :=
    if 0 < loc.environmental_quality then individual_depletion.ENVIRONMENT_HEALING
    else if loc.environmental_quality < -1 then individual_depletion.ENVIRONMENT_HAZARDOUS
    else individual_depletion.ENVIRONMENT_NEUTRAL
  let v := rclamp 0 thresholds.NEED_MAX (i.environment + depletion * (hours_passed : ℚ))
  { i with environment := v }

/-- Needs decay for intimacy (needs.rs `update_intimacy`). -/
def update_intimacy (hours_passed : ℕ) (i : Individual) : Individual :=
  let v := rclamp 0 thresholds.NEED_MAX
    (i.intimacy + individual_depletion.INTIMACY_BASE * (hours_passed : ℚ))
  { i with intimacy := v }

/-- Needs decay/growth for rest, modulated by stress (needs.rs `update_rest`). -/
def update_rest (hours_passed : ℕ) (i : Individual) : Individual :=
  let depletion := match i.status with
    | IndividualStatus.Sleeping _ => individual_depletion.REST_SLEEPING
    | IndividualStatus.Working _ => individual_depletion.REST_WORKING
    | _ => individual_depletion.REST_BASE
  let stress_modifier := (i.stress / 10) * individual_depletion.STRESS_TO_REST_FACTOR
  let v := rclamp 0 thresholds.NEED_MAX
    (i.rest + (depletion + stress_modifier) * (hours_passed : ℚ))
  { i with rest := v }

/-- Waste accumulation (needs.rs `update_waste`). -/
def update_waste (hours_passed : ℕ) (i : Individual) : Individual :=
  let v := rclamp 0 thresholds.NEED_MAX
    (i.waste + individual_depletion.WASTE_BASE * (hours_passed : ℚ))
  { i with waste := v }

/-- Threat evolution by location (needs.rs `update_threat`). -/
def update_threat (hours_passed : ℕ) (loc : LocationCapability)
    (i : Individual) : Individual :=
  let depletion :=
    if loc.provides_healthcare || loc.provides_rest then
      individual_depletion.THREAT_SAFE_BUILDING
    else if loc.environmental_quality < -1 then individual_depletion.THREAT_DANGEROUS
    else individual_depletion.THREAT_BASE
  let v := rclamp 0 thresholds.NEED_MAX (i.threat + depletion * (hours_passed : ℚ))
  { i with threat := v }

/-- Income evolution; when the freshly clamped income is below
`INCOME_CRITICAL` the source additionally adjusts safety without clamping
(needs.rs `update_income`; the source's conditional second mutation is
expressed as a conditional value for the safety field, reading the same
updated income and the same prior safety). -/
def update_income (hours_passed : ℕ) (i : Individual) : Individual :=
  let change := match i.status with
    | IndividualStatus.Working _ => individual_depletion.INCOME_WORKING
    | _ => individual_depletion.INCOME_LIVING_COST
  let v := rclamp 0 thresholds.INCOME_MAX (i.income + change * (hours_passed : ℚ))
  let s :=
    if v < thresholds.INCOME_CRITICAL then
      i.safety - individual_depletion.INCOME_UNEMPLOYED * (hours_passed : ℚ)
    else i.safety
  { i with income := v, safety := s }

/-- Stress evolution (needs.rs `update_stress`). -/
def update_stress (hours_passed : ℕ) (i : Individual) : Individual :=
  let change := match i.status with
    | IndividualStatus.Working _ => individual_depletion.STRESS_HIGH_WORKLOAD
    | IndividualStatus.Socializing _ => individual_depletion.STRESS_RECREATION
    | _ => individual_depletion.STRESS_BASE
  let income_stress :=
    if i.income < thresholds.INCOME_CRITICAL then
      individual_depletion.STRESS_LOW_INCOME
    else 0
  let v := rclamp 0 thresholds.NEED_MAX
    (i.stress + (change + income_stress) * (hours_passed : ℚ))
  { i with stress := v }

/-- Safety evolution by location (needs.rs `update_safety`). -/
def update_safety (hours_passed : ℕ) (loc : LocationCapability)
    (i : Individual) : Individual :=
  let change :=
    if i.home_id.isSome && loc.provides_rest then individual_depletion.SAFETY_AT_HOME
    else if loc.provides_healthcare || 0 < loc.environmental_quality then
      individual_depletion.SAFETY_SAFE_LOCATION
    else if loc.environmental_quality < -1 then individual_depletion.SAFETY_UNSAFE_AREA
    else individual_depletion.SAFETY_BASE
  let v := rclamp 0 thresholds.NEED_MAX (i.safety + change * (hours_passed : ℚ))
  { i with safety := v }

/-- Community evolution, capped at `NEED_MAX / 3` (needs.rs `update_community`). -/
def update_community (hours_passed : ℕ) (i : Individual) : Individual :=
  let depletion := match i.status with
    | IndividualStatus.Socializing _ => individual_depletion.COMMUNITY_EVENT
    | _ => individual_depletion.COMMUNITY_BASE
  let v := rclamp 0 (thresholds.NEED_MAX / 3)
    (i.community + depletion * (hours_passed : ℚ))
  { i with community := v }

/-- Progression evolution (needs.rs `update_progression`). -/
def update_progression (hours_passed : ℕ) (i : Individual) : Individual :=
  let change := match i.status, i.specialized_role with
    | IndividualStatus.Working _, SpecializedRole.None => (0 : ℚ)
    | IndividualStatus.Working _, _ => individual_depletion.PROGRESSION_MEANINGFUL_WORK
    | _, _ => 0
  let v := rclamp 0 thresholds.NEED_MAX
    (i.progression + change * (hours_passed : ℚ))
  { i with progression := v }

/-- Apply the full hourly decay/growth step with tier gating
(needs.rs `update_needs`). -/
def update_needs (hours_passed : ℕ) (loc : LocationCapability)
    (i : Individual) : Individual :=
  let i := update_food_water hours_passed i
  let i := update_environment hours_passed loc i
  let i := update_intimacy hours_passed i
  let i := update_rest hours_passed i
  let i := update_waste hours_passed i
  let i :=
    if i.is_need_level_active 2 then
      update_safety hours_passed loc
        (update_stress hours_passed
          (update_income hours_passed
            (update_threat hours_passed loc i)))
    else i
  let i := if i.is_need_level_active 3 then update_community hours_passed i else i
  let i := if i.is_need_level_active 5 then update_progression hours_passed i else i
  i

/-- Candidate (need, urgency) pairs, in the source's collection order
(needs.rs `get_most_pressing_need`, the `needs` vector). -/
def pressing_candidates (i : Individual) : List (FundamentalNeed × ℚ) :=
  (if thresholds.WASTE_CRITICAL < i.waste then
    [(FundamentalNeed.Waste, i.waste * priority_weights.WASTE_HIGH)] else []) ++
  (if i.food_water < thresholds.NEED_CRITICAL_LOW then
    [(FundamentalNeed.Consumption,
      (thresholds.NEED_MAX - i.food_water) * priority_weights.FOOD_CRITICAL)] else []) ++
  (if i.rest < thresholds.NEED_CRITICAL_LOW then
    [(FundamentalNeed.Rest,
      (thresholds.NEED_MAX - i.rest) * priority_weights.REST_CRITICAL)] else []) ++
  (if i.environment < thresholds.NEED_CRITICAL_LOW then
    [(FundamentalNeed.Environment,
      (thresholds.NEED_MAX - i.environment) * priority_weights.ENVIRONMENT_LOW)] else []) ++
  (if i.is_need_level_active 2 ∧ i.safety < thresholds.NEED_CRITICAL_LOW then
    [(FundamentalNeed.Environment,
      (thresholds.NEED_MAX - i.safety) * priority_weights.SAFETY_LOW)] else []) ++
  (if i.is_need_level_active 3 ∧ i.community < 10 then
    [(FundamentalNeed.Connection,
      (33.4 - i.community) * priority_weights.SOCIAL_NEEDS)] else [])

end Individual

/-- Left-fold maximum keeping the later element on ties, modelling the
semantics of Rust `Iterator::max_by` ("if several elements are equally
maximum, the last element is returned"). -/
def maxByLastAux {α : Type} (f : α → ℚ) (acc : α) : List α → α
  | [] => acc
  | x :: xs => maxByLastAux f (if f acc ≤ f x then x else acc) xs

/-- Optional maximum of a list under `f`, last maximal element preferred
(Rust `Iterator::max_by`). -/
def maxByLast {α : Type} (f : α → ℚ) : List α → Option α
  | [] => none
  | x :: xs => some (maxByLastAux f x xs)

namespace Individual

/-- The most pressing need: filter out urgencies at or below `NEED_URGENT`,
then take the maximum by urgency (needs.rs `get_most_pressing_need`). -/
def get_most_pressing_need (i : Individual) : Option (FundamentalNeed × ℚ) :=
  maxByLast (fun p => p.2)
    (i.pressing_candidates.filter (fun p => thresholds.NEED_URGENT < p.2))

end Individual

/-- Exact square root on the rationals whose numerator and denominator are
perfect squares; models f32 `sqrt` in `calculate_distance`, agreeing with it
on every concrete input used in this development (squared distances 0). -/
def ratSqrt (q : ℚ) : ℚ := (Nat.sqrt q.num.toNat : ℚ) / (Nat.sqrt q.den : ℚ)

/-- Euclidean distance between two points (priorities.rs `calculate_distance`). -/
def calculate_distance (x1 y1 x2 y2 : ℚ) : ℚ :=
  ratSqrt ((x2 - x1) ^ 2 + (y2 - y1) ^ 2)

/-- Travel time from distance: one hour per 10 units, at least 1
(priorities.rs `calculate_travel_time`). -/
def calculate_travel_time (distance : ℚ) : ℕ :=
  max (Int.toNat ⌈distance / 10⌉) 1

/-- Whether a location's capability set can satisfy a need for this agent
(the `can_fulfill` match inside priorities.rs `find_best_location_for_need`). -/
def can_fulfill (ind : Individual) (need : FundamentalNeed)
    (b : Building) (l : LocationCapability) : Bool :=
  match need with
  | FundamentalNeed.Environment =>
      decide (0 < l.environmental_quality) || l.provides_healthcare ||
      (decide (ind.home_id = some b.id) && l.provides_rest)
  | FundamentalNeed.Consumption => l.provides_food
  | FundamentalNeed.Connection => l.provides_social || l.provides_culture
  | FundamentalNeed.Rest => l.provides_rest && decide (ind.home_id = some b.id)
  | FundamentalNeed.Waste => l.provides_facilities

/-- The scored candidate list (the `candidates` vector of
priorities.rs `find_best_location_for_need`): buildings zipped positionally
with capability rows, full or unfit locations skipped, each survivor scored
as quality + prestige bonus + home bonus + work bonus - distance penalty.
Entries are (building id, total score, travel time). -/
def location_candidates (ind : Individual) (need : FundamentalNeed)
    (buildings : List Building) (locations : List LocationCapability)
    (current_x current_y : ℚ) : List (ℕ × ℚ × ℕ) :=
  (buildings.zip locations).filterMap (fun bl =>
    let b := bl.1
    let l := bl.2
    if b.max_capacity ≤ b.current_occupants then none
    else if ¬ can_fulfill ind need b l then none
    else
      let distance := calculate_distance current_x current_y b.location_x b.location_y
      let travel_time := calculate_travel_time distance
      let quality_score := l.environmental_quality + (b.prestige_level : ℚ) * 0.2
      let distance_penalty := distance * 0.1
      let home_bonus : ℚ := if ind.home_id = some b.id then 2 else 0
      let work_bonus : ℚ := if ind.workplace_id = some b.id then 1 else 0
      let total_score := quality_score + home_bonus + work_bonus - distance_penalty
      some (b.id, total_score, travel_time))

/-- Best location for a need: maximal total score among candidates, last
candidate preferred on ties (priorities.rs `find_best_location_for_need`). -/
def find_best_location_for_need (ind : Individual) (need : FundamentalNeed)
    (buildings : List Building) (locations : List LocationCapability)
    (current_x current_y : ℚ) : Option (ℕ × ℚ) :=
  (maxByLast (fun c => c.2.1)
    (location_candidates ind need buildings locations current_x current_y)).map
    (fun c => (c.1, c.2.1))

/-- Action chosen for a need at a location (priorities.rs
`determine_action_for_need`). -/
def determine_action_for_need (ind : Individual) (need : FundamentalNeed)
    (building_id : ℕ) : Option IndividualAction :=
  match need with
  | FundamentalNeed.Environment =>
      if ind.home_id = some building_id then some IndividualAction.Sleep else none
  | FundamentalNeed.Consumption => some IndividualAction.Eat
  | FundamentalNeed.Connection => some IndividualAction.Socialize
  | FundamentalNeed.Rest => some IndividualAction.Sleep
  | FundamentalNeed.Waste => some IndividualAction.UseFacilities

/-- Enter an action state and apply its resource deltas (reducers/individual.rs
`perform_action`).  Domain-event logging and the no-op `pay_rent` are omitted:
the source's event inserts do not mutate the individual and the reducer always
returns `Ok`. -/
def perform_action (i : Individual) (action : IndividualAction)
    (current_hour : ℕ) : Individual :=
  match action with
  | IndividualAction.Work =>
      let st := IndividualStatus.Working
        ⟨current_hour + actions.WORK_DURATION, none, i.workplace_id⟩
      let i := { i with status := st }
      let i := { i with rest := i.rest + actions.WORK_REST_COST }
      let i := { i with stress := i.stress + actions.WORK_STRESS_GAIN }
      { i with income := i.income + actions.WORK_INCOME_GAIN }
  | IndividualAction.Sleep =>
      let st := IndividualStatus.Sleeping
        ⟨current_hour + actions.SLEEP_DURATION, none, i.home_id⟩
      let i := { i with status := st }
      { i with rest := i.rest + actions.SLEEP_REST_GAIN }
  | IndividualAction.Eat =>
      let st := IndividualStatus.Eating ⟨current_hour + actions.EAT_DURATION, none, none⟩
      let i := { i with status := st }
      let i := { i with food_water := i.food_water + actions.EAT_FOOD_GAIN }
      { i with income := i.income - 5 }
  | IndividualAction.Socialize =>
      let st := IndividualStatus.Socializing
        ⟨current_hour + actions.SOCIALIZE_DURATION, none, none⟩
      let i := { i with status := st }
      let si := min (i.social_interaction + actions.SOCIALIZE_SOCIAL_GAIN) 33.3
      let i := { i with social_interaction := si }
      { i with stress := i.stress + actions.SOCIALIZE_STRESS_LOSS }
  | IndividualAction.UseFacilities =>
      let st := IndividualStatus.UsingFacilities
        ⟨current_hour + 1, none, some i.current_location_id⟩
      let i := { i with status := st }
      { i with waste := i.waste + individual_depletion.WASTE_FACILITIES }
  | IndividualAction.MaintainBuilding =>
      let st := IndividualStatus.Maintaining
        ⟨current_hour + actions.MAINTAIN_DURATION, none, some i.current_location_id⟩
      { i with status := st }
  | IndividualAction.CleanBuilding =>
      let st := IndividualStatus.Maintaining
        ⟨current_hour + actions.CLEAN_DURATION, none, some i.current_location_id⟩
      { i with status := st }
  | _ => i

/-- Handle a pressing need: find the best location, act there or start
travelling (reducers/individual.rs `handle_pressing_need`).  The source's
`.unwrap()` on the target-building lookup is modelled as an error. -/
def handle_pressing_need (i : Individual) (need : FundamentalNeed)
    (buildings : List Building) (locations : List LocationCapability)
    (current_hour : ℕ) : Except String Individual :=
  match buildings.find? (fun b => b.id = i.current_location_id) with
  | none => Except.error "Current building not found"
  | some current_building =>
    match find_best_location_for_need i need buildings locations
        current_building.location_x current_building.location_y with
    | none => Except.ok i
    | some (target_building_id, _score) =>
      if target_building_id = i.current_location_id then
        match determine_action_for_need i need target_building_id with
        | some action => Except.ok (perform_action i action current_hour)
        | none => Except.ok i
      else
        match buildings.find? (fun b => b.id = target_building_id) with
        | none => Except.error "panic: target building not found"
        | some target_building =>
          let distance := calculate_distance
            current_building.location_x current_building.location_y
            target_building.location_x target_building.location_y
          let travel_time := calculate_travel_time distance
          let st := IndividualStatus.InTransit
            ⟨current_hour + travel_time, some target_building_id, none⟩
          let i := { i with status := st }
          let r := i.rest + actions.MOVE_REST_COST * (travel_time : ℚ)
          Except.ok { i with rest := r }

/-- A movement event row (tables/events.rs `MovementEvent`; the row id,
assigned from the table row count, is omitted). -/
structure MovementEvent where
  individual_id : ℕ
  from_location_id : ℕ
  to_location_id : ℕ
  hour : ℕ
  reason : FundamentalNeed
  travel_time : ℕ
  deriving DecidableEq, Repr

/-- Insert a movement event (reducers/individual.rs `log_movement`). -/
def log_movement (individual_id fromLoc toLoc hour : ℕ) : MovementEvent :=
  ⟨individual_id, fromLoc, toLoc, hour, FundamentalNeed.Environment, 1⟩

/-- Status-expiry check of the per-agent tick (the `match` on
`individual.status` in reducers/individual.rs `update_individual_needs`,
lines 107-131): any timed status reverts to Idle at its expiry hour; an
InTransit arrival also moves the agent to the carried target location and
logs a movement event whose `from` argument is read after the move. -/
def check_status_expiry (current_hour : ℕ) (i : Individual) :
    Individual × Option MovementEvent :=
  match i.status with
  | IndividualStatus.Working d | IndividualStatus.Sleeping d
  | IndividualStatus.Eating d | IndividualStatus.Socializing d
  | IndividualStatus.Maintaining d | IndividualStatus.UsingFacilities d =>
      if d.until_hour ≤ current_hour then
        ({ i with status := IndividualStatus.Idle }, none)
      else (i, none)
  | IndividualStatus.InTransit d =>
      if d.until_hour ≤ current_hour then
        match d.target_location with
        | some target_location =>
            let i := { i with current_location_id := target_location,
                              status := IndividualStatus.Idle }
            let ev := log_movement i.id i.current_location_id target_location
              current_hour
            (i, some ev)
        | none => (i, none)
      else (i, none)
  | IndividualStatus.Idle => (i, none)

/-- Per-agent tick (reducers/individual.rs `update_individual_needs`):
apply time-based need decay, expire the current status, then if idle react
to the most pressing need; returns the updated agent and any movement event
inserted on arrival. -/
def update_individual_needs (current_hour : ℕ) (buildings : List Building)
    (locations : List LocationCapability) (i : Individual) :
    Except String (Individual × Option MovementEvent) :=
  let hours_passed := current_hour - i.last_update_hour
  if hours_passed = 0 then Except.ok (i, none)
  else
    match locations.find? (fun l => l.building_id = i.current_location_id) with
    | none => Except.error "Location capability not found"
    | some location =>
      let i := Individual.update_needs hours_passed location i
      let step := check_status_expiry current_hour i
      let i := step.1
      let ev := step.2
      match i.status with
      | IndividualStatus.Idle =>
        match i.get_most_pressing_need with
        | some (need, _priority) =>
          match handle_pressing_need i need buildings locations current_hour with
          | Except.ok i2 =>
              Except.ok ({ i2 with last_update_hour := current_hour }, ev)
          | Except.error e => Except.error e
        | none => Except.ok ({ i with last_update_hour := current_hour }, ev)
      | _ => Except.ok ({ i with last_update_hour := current_hour }, ev)

/-! Multi-world batch scheduler (scheduler.rs). -/

/-- Narrative speed of a world (world/mod.rs `NarrativeSpeed`). -/
inductive NarrativeSpeed
  | Paused | Slow | Normal | Fast
  deriving DecidableEq, Repr

/-- A world record (world/game_world.rs `GameWorld`; only the fields the
scheduler reads are kept). -/
structure GameWorld where
  id : ℕ
  total_hours : ℕ
  narrative_speed : NarrativeSpeed
  next_update_ms : ℤ
  is_active : Bool
  deriving DecidableEq, Repr

/-- Scheduler configuration (scheduler.rs `SchedulerConfig`; the JSON
`performance_stats` string is kept opaque). -/
structure SchedulerConfig where
  id : ℕ
  enabled : Bool
  batch_size : ℕ
  max_processing_time_ms : ℕ
  last_run_ms : ℤ
  next_run_ms : ℤ
  run_interval_ms : ℕ
  deriving DecidableEq, Repr

/-- Batch statistics (scheduler.rs `ProcessingStats`). -/
structure ProcessingStats where
  worlds_processed : ℕ
  events_generated : ℕ
  processing_time_ms : ℕ
  errors_encountered : ℕ
  narrative_events : ℕ
  economic_events : ℕ
  political_events : ℕ
  natural_events : ℕ
  deriving DecidableEq, Repr

/-- The all-zero statistics (`ProcessingStats::default`). -/
def ProcessingStats.init : ProcessingStats := ⟨0, 0, 0, 0, 0, 0, 0, 0⟩

/-- Outcomes of one world's external subsystem calls (§6 collaborators:
economics, political, natural modules), abstracted as oracles: whether the
world-time advance succeeds, each event-generation call's result (`none`
models a returned `Err`, `some n` a list of `n` event ids), and how many of
the per-event narrative-event insertions succeed. -/
structure SubsystemOutcome where
  advance_time_ok : Bool
  economic_events : Option ℕ
  economic_narr_ok : ℕ
  political_events : Option ℕ
  political_narr_ok : ℕ
  natural_events : Option ℕ
  deriving DecidableEq, Repr

/-- Hours advanced per tick by narrative speed (the `hours_to_advance`
match in scheduler.rs `process_single_world`). -/
def hours_to_advance (speed : NarrativeSpeed) : ℕ :=
  match speed with
  | NarrativeSpeed.Paused => 0
  | NarrativeSpeed.Slow => 1
  | NarrativeSpeed.Normal => 24
  | NarrativeSpeed.Fast => 168

/-- Statistics accumulated by one world's successful pass through the
subsystem pipeline (the `stats` mutations of scheduler.rs
`process_single_world`): generated-event counts per category, narrative
conversions counted per successful insertion, and their total. -/
def process_single_world_stats (o : SubsystemOutcome) : ProcessingStats :=
  let econ := (o.economic_events).getD 0
  let econNarr := match o.economic_events with
    | some n => min o.economic_narr_ok n
    | none => 0
  let pol := (o.political_events).getD 0
  let polNarr := match o.political_events with
    | some n => min o.political_narr_ok n
    | none => 0
  let nat := (o.natural_events).getD 0
  let narr := econNarr + polNarr
  { ProcessingStats.init with
    economic_events := econ
    political_events := pol
    natural_events := nat
    narrative_events := narr
    events_generated := narr + econ + pol + nat }

/-- Process one world through the subsystem pipeline (scheduler.rs
`process_single_world`).  Every subsystem failure is logged and swallowed
except the world-time advance, whose error propagates via `?`; event counts
accumulate into the returned statistics. -/
def process_single_world (w : GameWorld) (o : SubsystemOutcome) :
    Except String ProcessingStats :=
  let hours := hours_to_advance w.narrative_speed
  if 0 < hours ∧ o.advance_time_ok = false then
    Except.error "advance_world_time failed"
  else
    Except.ok (process_single_world_stats o)

/-- Fold one world's processing result into the batch statistics (the
`match process_single_world` arms of scheduler.rs
`run_world_simulation_batch`). -/
def accumulate_world (stats : ProcessingStats) (w : GameWorld)
    (o : SubsystemOutcome) : ProcessingStats :=
  match process_single_world w o with
  | Except.ok ws =>
      { stats with
        worlds_processed := stats.worlds_processed + 1
        events_generated := stats.events_generated + ws.events_generated
        narrative_events := stats.narrative_events + ws.narrative_events
        economic_events := stats.economic_events + ws.economic_events
        political_events := stats.political_events + ws.political_events
        natural_events := stats.natural_events + ws.natural_events }
  | Except.error _ =>
      { stats with errors_encountered := stats.errors_encountered + 1 }

/-- Batch loop over the selected worlds (the `for world in worlds_batch`
loop of scheduler.rs `run_world_simulation_batch`): `elapsed k` is the
wall-clock milliseconds elapsed when the k-th world is considered; the loop
stops early once it exceeds the budget. -/
def run_batch_loop (budget : ℕ) (elapsed : ℕ → ℕ) :
    ℕ → List (GameWorld × SubsystemOutcome) → ProcessingStats → ProcessingStats
  | _, [], stats => stats
  | k, wo :: rest, stats =>
      if budget < elapsed k then stats
      else run_batch_loop budget elapsed (k + 1) rest
        (accumulate_world stats wo.1 wo.2)

/-- One scheduler invocation (scheduler.rs `run_world_simulation_batch`):
if enabled, take up to `batch_size` due worlds and process them within the
time budget, accumulating statistics; wall-clock readings are abstracted by
the `elapsed` oracle and each world's subsystem results by its
`SubsystemOutcome`.  A disabled scheduler returns without processing. -/
def run_world_simulation_batch (config : SchedulerConfig)
    (worlds_to_update : List (GameWorld × SubsystemOutcome))
    (elapsed : ℕ → ℕ) : ProcessingStats :=
  if config.enabled = false then ProcessingStats.init
  else
    run_batch_loop config.max_processing_time_ms elapsed 0
      (worlds_to_update.take config.batch_size) ProcessingStats.init

/-- Reconfigure the scheduler (scheduler.rs `configure_scheduler`): the
stored record is looked up (absence is the only error) and the three
parameters are stored verbatim. -/
def configure_scheduler (stored : Option SchedulerConfig)
    (batch_size run_interval_ms max_processing_time_ms : ℕ) :
    Except String SchedulerConfig :=
  match stored with
  | none => Except.error "Scheduler not initialized"
  | some config =>
      Except.ok { config with
        batch_size := batch_size
        run_interval_ms := run_interval_ms
        max_processing_time_ms := max_processing_time_ms }

/-- Range discipline claimed by the spec for every need scalar: all scalars
in `[0, 100]` except income in `[0, INCOME_MAX]` and community in
`[0, NEED_MAX / 3]`. -/
def needs_in_range (i : Individual) : Prop :=
  0 ≤ i.food_water ∧ i.food_water ≤ 100 ∧
  0 ≤ i.environment ∧ i.environment ≤ 100 ∧
  0 ≤ i.intimacy ∧ i.intimacy ≤ 100 ∧
  0 ≤ i.rest ∧ i.rest ≤ 100 ∧
  0 ≤ i.waste ∧ i.waste ≤ 100 ∧
  0 ≤ i.threat ∧ i.threat ≤ 100 ∧
  0 ≤ i.income ∧ i.income ≤ thresholds.INCOME_MAX ∧
  0 ≤ i.stress ∧ i.stress ≤ 100 ∧
  0 ≤ i.safety ∧ i.safety ≤ 100 ∧
  0 ≤ i.relationship ∧ i.relationship ≤ 100 ∧
  0 ≤ i.social_interaction ∧ i.social_interaction ≤ 100 ∧
  0 ≤ i.community ∧ i.community ≤ thresholds.NEED_MAX / 3 ∧
  0 ≤ i.achievements ∧ i.achievements ≤ 100 ∧
  0 ≤ i.progression ∧ i.progression ≤ 100

instance (i : Individual) : Decidable (needs_in_range i) := by
  unfold needs_in_range; infer_instance

/-! Concrete fixtures used to witness or refute the claims; `baseAgent`
carries the starting scalar values of reducers/individual.rs
`create_individual`. -/

/-- Agent with the `create_individual` starting needs, idle at location 1. -/
def baseAgent : Individual :=
  { id := 1, age := 25, current_location_id := 1, home_id := none,
    workplace_id := none,
    food_water := 70, environment := 80, intimacy := 50, rest := 80,
    waste := 20, threat := 20, income := 50, stress := 30, safety := 70,
    relationship := 0, social_interaction := 0, community := 20,
    achievements := 0, progression := 0,
    specialized_role := SpecializedRole.None,
    status := IndividualStatus.Idle, last_update_hour := 0, birth_hour := 0 }

/-- Agent with zero income but perfect safety, zero threat and zero stress. -/
def agentC2 : Individual :=
  { baseAgent with income := 0, safety := 100, threat := 0, stress := 0 }

/-- Agent whose food deficit and rest deficit produce the same urgency
(both `672`): food 16 gives `(100 - 16) * 8`, rest 4 gives `(100 - 4) * 7`. -/
def agentC3 : Individual :=
  { baseAgent with food_water := 16, rest := 4, waste := 0 }

/-- A facilities-providing building with free capacity, id 1, at the origin. -/
def bldA : Building :=
  ⟨1, 1, 0, 0, 100, 100, 0, 0, 0, 10⟩

/-- A second identical facilities-providing building, id 2. -/
def bldB : Building :=
  ⟨2, 1, 0, 0, 100, 100, 0, 0, 0, 10⟩

/-- Capability row for `bldA`: facilities only, neutral quality. -/
def capA : LocationCapability :=
  ⟨1, 1, false, false, false, true, false, false, false, false, 0⟩

/-- Capability row for `bldB`: facilities only, neutral quality. -/
def capB : LocationCapability :=
  ⟨2, 2, false, false, false, true, false, false, false, false, 0⟩

/-- Capability row for the tick fixtures: building 1, nothing provided,
neutral quality. -/
def capPlain : LocationCapability :=
  ⟨1, 1, false, false, false, false, false, false, false, false, 0⟩

/-- Agent in transit to location 2, arriving at hour 5. -/
def agentC6 : Individual :=
  { baseAgent with status := IndividualStatus.InTransit ⟨5, some 2, none⟩ }

/-- The default scheduler configuration (scheduler.rs `initialize_scheduler`). -/
def cfgDefault : SchedulerConfig :=
  ⟨1, true, 10, 30000, 0, 300000, 300000⟩

/-- A world ticking at slow speed. -/
def worldA : GameWorld := ⟨1, 0, NarrativeSpeed.Slow, 0, true⟩

/-- A second world ticking at slow speed. -/
def worldB : GameWorld := ⟨2, 0, NarrativeSpeed.Slow, 0, true⟩

/-- Subsystem outcome where only political-event generation fails. -/
def outcomePolFail : SubsystemOutcome := ⟨true, some 0, 0, none, 0, some 0⟩

/-- Subsystem outcome where every call succeeds and yields no events. -/
def outcomeOk : SubsystemOutcome := ⟨true, some 0, 0, some 0, 0, some 0⟩

/-- Subsystem outcome where the world-time advance fails. -/
def outcomeAdvFail : SubsystemOutcome := ⟨false, some 0, 0, some 0, 0, some 0⟩

/-- The default configuration with all three tunables set to zero. -/
def cfgZero : SchedulerConfig :=
  { cfgDefault with
    batch_size := 0
    run_interval_ms := 0
    max_processing_time_ms := 0 }

/-! Helper lemmas. -/

theorem rclamp_lo (lo hi x : ℚ) : lo ≤ rclamp lo hi x := le_max_left _ _

theorem rclamp_hi (lo hi x : ℚ) (h : lo ≤ hi) : rclamp lo hi x ≤ hi :=
  max_le h (min_le_left _ _)

theorem maxByLastAux_ub {α : Type} (f : α → ℚ) (l : List α) (acc : α) :
    f acc ≤ f (maxByLastAux f acc l) ∧
      ∀ y ∈ l, f y ≤ f (maxByLastAux f acc l) := by
  induction l generalizing acc with
  | nil => exact ⟨le_refl _, by simp⟩
  | cons x xs ih =>
    rw [maxByLastAux]
    by_cases h : f acc ≤ f x
    · rw [if_pos h]
      refine ⟨le_trans h (ih x).1, ?_⟩
      intro y hy
      rcases List.mem_cons.mp hy with hy | hy
      · exact hy ▸ (ih x).1
      · exact (ih x).2 y hy
    · rw [if_neg h]
      refine ⟨(ih acc).1, ?_⟩
      intro y hy
      rcases List.mem_cons.mp hy with hy | hy
      · exact hy ▸ le_trans (le_of_lt (lt_of_not_le h)) (ih acc).1
      · exact (ih acc).2 y hy

theorem maxByLastAux_decomp {α : Type} (f : α → ℚ) (l : List α) (acc : α) :
    ∃ l1 l2, acc :: l = l1 ++ maxByLastAux f acc l :: l2 ∧
      ∀ y ∈ l2, f y < f (maxByLastAux f acc l) := by
  induction l generalizing acc with
  | nil => exact ⟨[], [], rfl, by simp⟩
  | cons x xs ih =>
    rw [maxByLastAux]
    by_cases h : f acc ≤ f x
    · rw [if_pos h]
      obtain ⟨l1, l2, heq, hlt⟩ := ih x
      exact ⟨acc :: l1, l2, by rw [List.cons_append, ← heq], hlt⟩
    · rw [if_neg h]
      obtain ⟨l1, l2, heq, hlt⟩ := ih acc
      cases l1 with
      | nil =>
        simp only [List.nil_append] at heq
        have hacc : acc = maxByLastAux f acc xs := (List.cons.injEq _ _ _ _ ▸ heq).1
        have hxs : xs = l2 := (List.cons.injEq _ _ _ _ ▸ heq).2
        refine ⟨[], x :: xs, by rw [List.nil_append, ← hacc], ?_⟩
        intro y hy
        rcases List.mem_cons.mp hy with hy | hy
        · rw [hy, ← hacc]; exact lt_of_not_le h
        · exact hlt y (hxs ▸ hy)
      | cons a l1' =>
        have ha : acc = a := (List.cons.injEq _ _ _ _ ▸ heq).1
        have hxs : xs = l1' ++ maxByLastAux f acc xs :: l2 :=
          (List.cons.injEq _ _ _ _ ▸ heq).2
        refine ⟨acc :: x :: l1', l2, ?_, hlt⟩
        rw [List.cons_append, List.cons_append, ← hxs]

theorem maxByLast_eq_none {α : Type} (f : α → ℚ) (l : List α) :
    maxByLast f l = none ↔ l = [] := by
  cases l <;> simp [maxByLast]

theorem maxByLast_spec {α : Type} (f : α → ℚ) (l : List α) (r : α)
    (h : maxByLast f l = some r) :
    (∃ l1 l2, l = l1 ++ r :: l2 ∧ ∀ y ∈ l2, f y < f r) ∧
      ∀ y ∈ l, f y ≤ f r := by
  cases l with
  | nil => cases h
  | cons x xs =>
    rw [maxByLast] at h
    have hr : maxByLastAux f x xs = r := Option.some.inj h
    constructor
    · obtain ⟨l1, l2, heq, hlt⟩ := maxByLastAux_decomp f xs x
      exact ⟨l1, l2, hr ▸ heq, hr ▸ hlt⟩
    · intro y hy
      have := maxByLastAux_ub f xs x
      rcases List.mem_cons.mp hy with hy | hy
      · exact hy ▸ hr ▸ this.1
      · exact hr ▸ this.2 y hy

theorem update_food_water_fields (h : ℕ) (i : Individual) :
    (Individual.update_food_water h i).id = i.id ∧
    (Individual.update_food_water h i).age = i.age ∧
    (Individual.update_food_water h i).current_location_id = i.current_location_id ∧
    (Individual.update_food_water h i).home_id = i.home_id ∧
    (Individual.update_food_water h i).workplace_id = i.workplace_id ∧
    (Individual.update_food_water h i).environment = i.environment ∧
    (Individual.update_food_water h i).intimacy = i.intimacy ∧
    (Individual.update_food_water h i).rest = i.rest ∧
    (Individual.update_food_water h i).waste = i.waste ∧
    (Individual.update_food_water h i).threat = i.threat ∧
    (Individual.update_food_water h i).income = i.income ∧
    (Individual.update_food_water h i).stress = i.stress ∧
    (Individual.update_food_water h i).safety = i.safety ∧
    (Individual.update_food_water h i).relationship = i.relationship ∧
    (Individual.update_food_water h i).social_interaction = i.social_interaction ∧
    (Individual.update_food_water h i).community = i.community ∧
    (Individual.update_food_water h i).achievements = i.achievements ∧
    (Individual.update_food_water h i).progression = i.progression ∧
    (Individual.update_food_water h i).specialized_role = i.specialized_role ∧
    (Individual.update_food_water h i).status = i.status ∧
    (Individual.update_food_water h i).last_update_hour = i.last_update_hour ∧
    (Individual.update_food_water h i).birth_hour = i.birth_hour :=
  ⟨rfl, rfl, rfl, rfl, rfl, rfl, rfl, rfl, rfl, rfl, rfl, rfl, rfl, rfl, rfl, rfl, rfl, rfl, rfl, rfl, rfl, rfl⟩

theorem update_food_water_bounds (h : ℕ) (i : Individual) :
    0 ≤ (Individual.update_food_water h i).food_water ∧
      (Individual.update_food_water h i).food_water ≤ thresholds.NEED_MAX :=
  ⟨rclamp_lo _ _ _, rclamp_hi _ _ _ (by norm_num [thresholds.NEED_MAX, thresholds.INCOME_MAX])⟩

theorem update_environment_fields (h : ℕ) (loc : LocationCapability) (i : Individual) :
    (Individual.update_environment h loc i).id = i.id ∧
    (Individual.update_environment h loc i).age = i.age ∧
    (Individual.update_environment h loc i).current_location_id = i.current_location_id ∧
    (Individual.update_environment h loc i).home_id = i.home_id ∧
    (Individual.update_environment h loc i).workplace_id = i.workplace_id ∧
    (Individual.update_environment h loc i).food_water = i.food_water ∧
    (Individual.update_environment h loc i).intimacy = i.intimacy ∧
    (Individual.update_environment h loc i).rest = i.rest ∧
    (Individual.update_environment h loc i).waste = i.waste ∧
    (Individual.update_environment h loc i).threat = i.threat ∧
    (Individual.update_environment h loc i).income = i.income ∧
    (Individual.update_environment h loc i).stress = i.stress ∧
    (Individual.update_environment h loc i).safety = i.safety ∧
    (Individual.update_environment h loc i).relationship = i.relationship ∧
    (Individual.update_environment h loc i).social_interaction = i.social_interaction ∧
    (Individual.update_environment h loc i).community = i.community ∧
    (Individual.update_environment h loc i).achievements = i.achievements ∧
    (Individual.update_environment h loc i).progression = i.progression ∧
    (Individual.update_environment h loc i).specialized_role = i.specialized_role ∧
    (Individual.update_environment h loc i).status = i.status ∧
    (Individual.update_environment h loc i).last_update_hour = i.last_update_hour ∧
    (Individual.update_environment h loc i).birth_hour = i.birth_hour :=
  ⟨rfl, rfl, rfl, rfl, rfl, rfl, rfl, rfl, rfl, rfl, rfl, rfl, rfl, rfl, rfl, rfl, rfl, rfl, rfl, rfl, rfl, rfl⟩

theorem update_environment_bounds (h : ℕ) (loc : LocationCapability) (i : Individual) :
    0 ≤ (Individual.update_environment h loc i).environment ∧
      (Individual.update_environment h loc i).environment ≤ thresholds.NEED_MAX :=
  ⟨rclamp_lo _ _ _, rclamp_hi _ _ _ (by norm_num [thresholds.NEED_MAX, thresholds.INCOME_MAX])⟩

theorem update_intimacy_fields (h : ℕ) (i : Individual) :
    (Individual.update_intimacy h i).id = i.id ∧
    (Individual.update_intimacy h i).age = i.age ∧
    (Individual.update_intimacy h i).current_location_id = i.current_location_id ∧
    (Individual.update_intimacy h i).home_id = i.home_id ∧
    (Individual.update_intimacy h i).workplace_id = i.workplace_id ∧
    (Individual.update_intimacy h i).food_water = i.food_water ∧
    (Individual.update_intimacy h i).environment = i.environment ∧
    (Individual.update_intimacy h i).rest = i.rest ∧
    (Individual.update_intimacy h i).waste = i.waste ∧
    (Individual.update_intimacy h i).threat = i.threat ∧
    (Individual.update_intimacy h i).income = i.income ∧
    (Individual.update_intimacy h i).stress = i.stress ∧
    (Individual.update_intimacy h i).safety = i.safety ∧
    (Individual.update_intimacy h i).relationship = i.relationship ∧
    (Individual.update_intimacy h i).social_interaction = i.social_interaction ∧
    (Individual.update_intimacy h i).community = i.community ∧
    (Individual.update_intimacy h i).achievements = i.achievements ∧
    (Individual.update_intimacy h i).progression = i.progression ∧
    (Individual.update_intimacy h i).specialized_role = i.specialized_role ∧
    (Individual.update_intimacy h i).status = i.status ∧
    (Individual.update_intimacy h i).last_update_hour = i.last_update_hour ∧
    (Individual.update_intimacy h i).birth_hour = i.birth_hour :=
  ⟨rfl, rfl, rfl, rfl, rfl, rfl, rfl, rfl, rfl, rfl, rfl, rfl, rfl, rfl, rfl, rfl, rfl, rfl, rfl, rfl, rfl, rfl⟩

theorem update_intimacy_bounds (h : ℕ) (i : Individual) :
    0 ≤ (Individual.update_intimacy h i).intimacy ∧
      (Individual.update_intimacy h i).intimacy ≤ thresholds.NEED_MAX :=
  ⟨rclamp_lo _ _ _, rclamp_hi _ _ _ (by norm_num [thresholds.NEED_MAX, thresholds.INCOME_MAX])⟩

theorem update_rest_fields (h : ℕ) (i : Individual) :
    (Individual.update_rest h i).id = i.id ∧
    (Individual.update_rest h i).age = i.age ∧
    (Individual.update_rest h i).current_location_id = i.current_location_id ∧
    (Individual.update_rest h i).home_id = i.home_id ∧
    (Individual.update_rest h i).workplace_id = i.workplace_id ∧
    (Individual.update_rest h i).food_water = i.food_water ∧
    (Individual.update_rest h i).environment = i.environment ∧
    (Individual.update_rest h i).intimacy = i.intimacy ∧
    (Individual.update_rest h i).waste = i.waste ∧
    (Individual.update_rest h i).threat = i.threat ∧
    (Individual.update_rest h i).income = i.income ∧
    (Individual.update_rest h i).stress = i.stress ∧
    (Individual.update_rest h i).safety = i.safety ∧
    (Individual.update_rest h i).relationship = i.relationship ∧
    (Individual.update_rest h i).social_interaction = i.social_interaction ∧
    (Individual.update_rest h i).community = i.community ∧
    (Individual.update_rest h i).achievements = i.achievements ∧
    (Individual.update_rest h i).progression = i.progression ∧
    (Individual.update_rest h i).specialized_role = i.specialized_role ∧
    (Individual.update_rest h i).status = i.status ∧
    (Individual.update_rest h i).last_update_hour = i.last_update_hour ∧
    (Individual.update_rest h i).birth_hour = i.birth_hour :=
  ⟨rfl, rfl, rfl, rfl, rfl, rfl, rfl, rfl, rfl, rfl, rfl, rfl, rfl, rfl, rfl, rfl, rfl, rfl, rfl, rfl, rfl, rfl⟩

theorem update_rest_bounds (h : ℕ) (i : Individual) :
    0 ≤ (Individual.update_rest h i).rest ∧
      (Individual.update_rest h i).rest ≤ thresholds.NEED_MAX :=
  ⟨rclamp_lo _ _ _, rclamp_hi _ _ _ (by norm_num [thresholds.NEED_MAX, thresholds.INCOME_MAX])⟩

theorem update_waste_fields (h : ℕ) (i : Individual) :
    (Individual.update_waste h i).id = i.id ∧
    (Individual.update_waste h i).age = i.age ∧
    (Individual.update_waste h i).current_location_id = i.current_location_id ∧
    (Individual.update_waste h i).home_id = i.home_id ∧
    (Individual.update_waste h i).workplace_id = i.workplace_id ∧
    (Individual.update_waste h i).food_water = i.food_water ∧
    (Individual.update_waste h i).environment = i.environment ∧
    (Individual.update_waste h i).intimacy = i.intimacy ∧
    (Individual.update_waste h i).rest = i.rest ∧
    (Individual.update_waste h i).threat = i.threat ∧
    (Individual.update_waste h i).income = i.income ∧
    (Individual.update_waste h i).stress = i.stress ∧
    (Individual.update_waste h i).safety = i.safety ∧
    (Individual.update_waste h i).relationship = i.relationship ∧
    (Individual.update_waste h i).social_interaction = i.social_interaction ∧
    (Individual.update_waste h i).community = i.community ∧
    (Individual.update_waste h i).achievements = i.achievements ∧
    (Individual.update_waste h i).progression = i.progression ∧
    (Individual.update_waste h i).specialized_role = i.specialized_role ∧
    (Individual.update_waste h i).status = i.status ∧
    (Individual.update_waste h i).last_update_hour = i.last_update_hour ∧
    (Individual.update_waste h i).birth_hour = i.birth_hour :=
  ⟨rfl, rfl, rfl, rfl, rfl, rfl, rfl, rfl, rfl, rfl, rfl, rfl, rfl, rfl, rfl, rfl, rfl, rfl, rfl, rfl, rfl, rfl⟩

theorem update_waste_bounds (h : ℕ) (i : Individual) :
    0 ≤ (Individual.update_waste h i).waste ∧
      (Individual.update_waste h i).waste ≤ thresholds.NEED_MAX :=
  ⟨rclamp_lo _ _ _, rclamp_hi _ _ _ (by norm_num [thresholds.NEED_MAX, thresholds.INCOME_MAX])⟩

theorem update_threat_fields (h : ℕ) (loc : LocationCapability) (i : Individual) :
    (Individual.update_threat h loc i).id = i.id ∧
    (Individual.update_threat h loc i).age = i.age ∧
    (Individual.update_threat h loc i).current_location_id = i.current_location_id ∧
    (Individual.update_threat h loc i).home_id = i.home_id ∧
    (Individual.update_threat h loc i).workplace_id = i.workplace_id ∧
    (Individual.update_threat h loc i).food_water = i.food_water ∧
    (Individual.update_threat h loc i).environment = i.environment ∧
    (Individual.update_threat h loc i).intimacy = i.intimacy ∧
    (Individual.update_threat h loc i).rest = i.rest ∧
    (Individual.update_threat h loc i).waste = i.waste ∧
    (Individual.update_threat h loc i).income = i.income ∧
    (Individual.update_threat h loc i).stress = i.stress ∧
    (Individual.update_threat h loc i).safety = i.safety ∧
    (Individual.update_threat h loc i).relationship = i.relationship ∧
    (Individual.update_threat h loc i).social_interaction = i.social_interaction ∧
    (Individual.update_threat h loc i).community = i.community ∧
    (Individual.update_threat h loc i).achievements = i.achievements ∧
    (Individual.update_threat h loc i).progression = i.progression ∧
    (Individual.update_threat h loc i).specialized_role = i.specialized_role ∧
    (Individual.update_threat h loc i).status = i.status ∧
    (Individual.update_threat h loc i).last_update_hour = i.last_update_hour ∧
    (Individual.update_threat h loc i).birth_hour = i.birth_hour :=
  ⟨rfl, rfl, rfl, rfl, rfl, rfl, rfl, rfl, rfl, rfl, rfl, rfl, rfl, rfl, rfl, rfl, rfl, rfl, rfl, rfl, rfl, rfl⟩

theorem update_threat_bounds (h : ℕ) (loc : LocationCapability) (i : Individual) :
    0 ≤ (Individual.update_threat h loc i).threat ∧
      (Individual.update_threat h loc i).threat ≤ thresholds.NEED_MAX :=
  ⟨rclamp_lo _ _ _, rclamp_hi _ _ _ (by norm_num [thresholds.NEED_MAX, thresholds.INCOME_MAX])⟩

theorem update_income_fields (h : ℕ) (i : Individual) :
    (Individual.update_income h i).id = i.id ∧
    (Individual.update_income h i).age = i.age ∧
    (Individual.update_income h i).current_location_id = i.current_location_id ∧
    (Individual.update_income h i).home_id = i.home_id ∧
    (Individual.update_income h i).workplace_id = i.workplace_id ∧
    (Individual.update_income h i).food_water = i.food_water ∧
    (Individual.update_income h i).environment = i.environment ∧
    (Individual.update_income h i).intimacy = i.intimacy ∧
    (Individual.update_income h i).rest = i.rest ∧
    (Individual.update_income h i).waste = i.waste ∧
    (Individual.update_income h i).threat = i.threat ∧
    (Individual.update_income h i).stress = i.stress ∧
    (Individual.update_income h i).relationship = i.relationship ∧
    (Individual.update_income h i).social_interaction = i.social_interaction ∧
    (Individual.update_income h i).community = i.community ∧
    (Individual.update_income h i).achievements = i.achievements ∧
    (Individual.update_income h i).progression = i.progression ∧
    (Individual.update_income h i).specialized_role = i.specialized_role ∧
    (Individual.update_income h i).status = i.status ∧
    (Individual.update_income h i).last_update_hour = i.last_update_hour ∧
    (Individual.update_income h i).birth_hour = i.birth_hour :=
  ⟨rfl, rfl, rfl, rfl, rfl, rfl, rfl, rfl, rfl, rfl, rfl, rfl, rfl, rfl, rfl, rfl, rfl, rfl, rfl, rfl, rfl⟩

theorem update_income_bounds (h : ℕ) (i : Individual) :
    0 ≤ (Individual.update_income h i).income ∧
      (Individual.update_income h i).income ≤ thresholds.INCOME_MAX :=
  ⟨rclamp_lo _ _ _, rclamp_hi _ _ _ (by norm_num [thresholds.NEED_MAX, thresholds.INCOME_MAX])⟩

theorem update_stress_fields (h : ℕ) (i : Individual) :
    (Individual.update_stress h i).id = i.id ∧
    (Individual.update_stress h i).age = i.age ∧
    (Individual.update_stress h i).current_location_id = i.current_location_id ∧
    (Individual.update_stress h i).home_id = i.home_id ∧
    (Individual.update_stress h i).workplace_id = i.workplace_id ∧
    (Individual.update_stress h i).food_water = i.food_water ∧
    (Individual.update_stress h i).environment = i.environment ∧
    (Individual.update_stress h i).intimacy = i.intimacy ∧
    (Individual.update_stress h i).rest = i.rest ∧
    (Individual.update_stress h i).waste = i.waste ∧
    (Individual.update_stress h i).threat = i.threat ∧
    (Individual.update_stress h i).income = i.income ∧
    (Individual.update_stress h i).safety = i.safety ∧
    (Individual.update_stress h i).relationship = i.relationship ∧
    (Individual.update_stress h i).social_interaction = i.social_interaction ∧
    (Individual.update_stress h i).community = i.community ∧
    (Individual.update_stress h i).achievements = i.achievements ∧
    (Individual.update_stress h i).progression = i.progression ∧
    (Individual.update_stress h i).specialized_role = i.specialized_role ∧
    (Individual.update_stress h i).status = i.status ∧
    (Individual.update_stress h i).last_update_hour = i.last_update_hour ∧
    (Individual.update_stress h i).birth_hour = i.birth_hour :=
  ⟨rfl, rfl, rfl, rfl, rfl, rfl, rfl, rfl, rfl, rfl, rfl, rfl, rfl, rfl, rfl, rfl, rfl, rfl, rfl, rfl, rfl, rfl⟩

theorem update_stress_bounds (h : ℕ) (i : Individual) :
    0 ≤ (Individual.update_stress h i).stress ∧
      (Individual.update_stress h i).stress ≤ thresholds.NEED_MAX :=
  ⟨rclamp_lo _ _ _, rclamp_hi _ _ _ (by norm_num [thresholds.NEED_MAX, thresholds.INCOME_MAX])⟩

theorem update_safety_fields (h : ℕ) (loc : LocationCapability) (i : Individual) :
    (Individual.update_safety h loc i).id = i.id ∧
    (Individual.update_safety h loc i).age = i.age ∧
    (Individual.update_safety h loc i).current_location_id = i.current_location_id ∧
    (Individual.update_safety h loc i).home_id = i.home_id ∧
    (Individual.update_safety h loc i).workplace_id = i.workplace_id ∧
    (Individual.update_safety h loc i).food_water = i.food_water ∧
    (Individual.update_safety h loc i).environment = i.environment ∧
    (Individual.update_safety h loc i).intimacy = i.intimacy ∧
    (Individual.update_safety h loc i).rest = i.rest ∧
    (Individual.update_safety h loc i).waste = i.waste ∧
    (Individual.update_safety h loc i).threat = i.threat ∧
    (Individual.update_safety h loc i).income = i.income ∧
    (Individual.update_safety h loc i).stress = i.stress ∧
    (Individual.update_safety h loc i).relationship = i.relationship ∧
    (Individual.update_safety h loc i).social_interaction = i.social_interaction ∧
    (Individual.update_safety h loc i).community = i.community ∧
    (Individual.update_safety h loc i).achievements = i.achievements ∧
    (Individual.update_safety h loc i).progression = i.progression ∧
    (Individual.update_safety h loc i).specialized_role = i.specialized_role ∧
    (Individual.update_safety h loc i).status = i.status ∧
    (Individual.update_safety h loc i).last_update_hour = i.last_update_hour ∧
    (Individual.update_safety h loc i).birth_hour = i.birth_hour :=
  ⟨rfl, rfl, rfl, rfl, rfl, rfl, rfl, rfl, rfl, rfl, rfl, rfl, rfl, rfl, rfl, rfl, rfl, rfl, rfl, rfl, rfl, rfl⟩

theorem update_safety_bounds (h : ℕ) (loc : LocationCapability) (i : Individual) :
    0 ≤ (Individual.update_safety h loc i).safety ∧
      (Individual.update_safety h loc i).safety ≤ thresholds.NEED_MAX :=
  ⟨rclamp_lo _ _ _, rclamp_hi _ _ _ (by norm_num [thresholds.NEED_MAX, thresholds.INCOME_MAX])⟩

theorem update_community_fields (h : ℕ) (i : Individual) :
    (Individual.update_community h i).id = i.id ∧
    (Individual.update_community h i).age = i.age ∧
    (Individual.update_community h i).current_location_id = i.current_location_id ∧
    (Individual.update_community h i).home_id = i.home_id ∧
    (Individual.update_community h i).workplace_id = i.workplace_id ∧
    (Individual.update_community h i).food_water = i.food_water ∧
    (Individual.update_community h i).environment = i.environment ∧
    (Individual.update_community h i).intimacy = i.intimacy ∧
    (Individual.update_community h i).rest = i.rest ∧
    (Individual.update_community h i).waste = i.waste ∧
    (Individual.update_community h i).threat = i.threat ∧
    (Individual.update_community h i).income = i.income ∧
    (Individual.update_community h i).stress = i.stress ∧
    (Individual.update_community h i).safety = i.safety ∧
    (Individual.update_community h i).relationship = i.relationship ∧
    (Individual.update_community h i).social_interaction = i.social_interaction ∧
    (Individual.update_community h i).achievements = i.achievements ∧
    (Individual.update_community h i).progression = i.progression ∧
    (Individual.update_community h i).specialized_role = i.specialized_role ∧
    (Individual.update_community h i).status = i.status ∧
    (Individual.update_community h i).last_update_hour = i.last_update_hour ∧
    (Individual.update_community h i).birth_hour = i.birth_hour :=
  ⟨rfl, rfl, rfl, rfl, rfl, rfl, rfl, rfl, rfl, rfl, rfl, rfl, rfl, rfl, rfl, rfl, rfl, rfl, rfl, rfl, rfl, rfl⟩

theorem update_community_bounds (h : ℕ) (i : Individual) :
    0 ≤ (Individual.update_community h i).community ∧
      (Individual.update_community h i).community ≤ thresholds.NEED_MAX / 3 :=
  ⟨rclamp_lo _ _ _, rclamp_hi _ _ _ (by norm_num [thresholds.NEED_MAX, thresholds.INCOME_MAX])⟩

theorem update_progression_fields (h : ℕ) (i : Individual) :
    (Individual.update_progression h i).id = i.id ∧
    (Individual.update_progression h i).age = i.age ∧
    (Individual.update_progression h i).current_location_id = i.current_location_id ∧
    (Individual.update_progression h i).home_id = i.home_id ∧
    (Individual.update_progression h i).workplace_id = i.workplace_id ∧
    (Individual.update_progression h i).food_water = i.food_water ∧
    (Individual.update_progression h i).environment = i.environment ∧
    (Individual.update_progression h i).intimacy = i.intimacy ∧
    (Individual.update_progression h i).rest = i.rest ∧
    (Individual.update_progression h i).waste = i.waste ∧
    (Individual.update_progression h i).threat = i.threat ∧
    (Individual.update_progression h i).income = i.income ∧
    (Individual.update_progression h i).stress = i.stress ∧
    (Individual.update_progression h i).safety = i.safety ∧
    (Individual.update_progression h i).relationship = i.relationship ∧
    (Individual.update_progression h i).social_interaction = i.social_interaction ∧
    (Individual.update_progression h i).community = i.community ∧
    (Individual.update_progression h i).achievements = i.achievements ∧
    (Individual.update_progression h i).specialized_role = i.specialized_role ∧
    (Individual.update_progression h i).status = i.status ∧
    (Individual.update_progression h i).last_update_hour = i.last_update_hour ∧
    (Individual.update_progression h i).birth_hour = i.birth_hour :=
  ⟨rfl, rfl, rfl, rfl, rfl, rfl, rfl, rfl, rfl, rfl, rfl, rfl, rfl, rfl, rfl, rfl, rfl, rfl, rfl, rfl, rfl, rfl⟩

theorem update_progression_bounds (h : ℕ) (i : Individual) :
    0 ≤ (Individual.update_progression h i).progression ∧
      (Individual.update_progression h i).progression ≤ thresholds.NEED_MAX :=
  ⟨rclamp_lo _ _ _, rclamp_hi _ _ _ (by norm_num [thresholds.NEED_MAX, thresholds.INCOME_MAX])⟩

theorem update_food_water_in_range (h : ℕ) (i : Individual)
    (hi : needs_in_range i) :
    needs_in_range (Individual.update_food_water h i) := by
  obtain ⟨a1, a2, b1, b2, c1, c2, d1, d2, e1, e2, f1, f2, g1, g2, s1, s2, sa1,
    sa2, r1, r2, si1, si2, co1, co2, ac1, ac2, p1, p2⟩ := hi
  exact ⟨rclamp_lo _ _ _, rclamp_hi _ _ _ (by norm_num [thresholds.NEED_MAX]),
    b1, b2, c1, c2, d1, d2, e1, e2, f1, f2, g1, g2, s1, s2, sa1, sa2, r1, r2,
    si1, si2, co1, co2, ac1, ac2, p1, p2⟩

theorem update_environment_in_range (h : ℕ) (loc : LocationCapability)
    (i : Individual) (hi : needs_in_range i) :
    needs_in_range (Individual.update_environment h loc i) := by
  obtain ⟨a1, a2, b1, b2, c1, c2, d1, d2, e1, e2, f1, f2, g1, g2, s1, s2, sa1,
    sa2, r1, r2, si1, si2, co1, co2, ac1, ac2, p1, p2⟩ := hi
  exact ⟨a1, a2, rclamp_lo _ _ _,
    rclamp_hi _ _ _ (by norm_num [thresholds.NEED_MAX]),
    c1, c2, d1, d2, e1, e2, f1, f2, g1, g2, s1, s2, sa1, sa2, r1, r2,
    si1, si2, co1, co2, ac1, ac2, p1, p2⟩

theorem update_intimacy_in_range (h : ℕ) (i : Individual)
    (hi : needs_in_range i) :
    needs_in_range (Individual.update_intimacy h i) := by
  obtain ⟨a1, a2, b1, b2, c1, c2, d1, d2, e1, e2, f1, f2, g1, g2, s1, s2, sa1,
    sa2, r1, r2, si1, si2, co1, co2, ac1, ac2, p1, p2⟩ := hi
  exact ⟨a1, a2, b1, b2, rclamp_lo _ _ _,
    rclamp_hi _ _ _ (by norm_num [thresholds.NEED_MAX]),
    d1, d2, e1, e2, f1, f2, g1, g2, s1, s2, sa1, sa2, r1, r2,
    si1, si2, co1, co2, ac1, ac2, p1, p2⟩

theorem update_rest_in_range (h : ℕ) (i : Individual)
    (hi : needs_in_range i) :
    needs_in_range (Individual.update_rest h i) := by
  obtain ⟨a1, a2, b1, b2, c1, c2, d1, d2, e1, e2, f1, f2, g1, g2, s1, s2, sa1,
    sa2, r1, r2, si1, si2, co1, co2, ac1, ac2, p1, p2⟩ := hi
  exact ⟨a1, a2, b1, b2, c1, c2, rclamp_lo _ _ _,
    rclamp_hi _ _ _ (by norm_num [thresholds.NEED_MAX]),
    e1, e2, f1, f2, g1, g2, s1, s2, sa1, sa2, r1, r2,
    si1, si2, co1, co2, ac1, ac2, p1, p2⟩

theorem update_waste_in_range (h : ℕ) (i : Individual)
    (hi : needs_in_range i) :
    needs_in_range (Individual.update_waste h i) := by
  obtain ⟨a1, a2, b1, b2, c1, c2, d1, d2, e1, e2, f1, f2, g1, g2, s1, s2, sa1,
    sa2, r1, r2, si1, si2, co1, co2, ac1, ac2, p1, p2⟩ := hi
  exact ⟨a1, a2, b1, b2, c1, c2, d1, d2, rclamp_lo _ _ _,
    rclamp_hi _ _ _ (by norm_num [thresholds.NEED_MAX]),
    f1, f2, g1, g2, s1, s2, sa1, sa2, r1, r2,
    si1, si2, co1, co2, ac1, ac2, p1, p2⟩

/-- The active-Tier-2 update chain threat, income, stress, safety keeps every
scalar in range: `update_income` may push safety out of range unclamped, but
`update_safety` at the end of the chain clamps it back. -/
theorem level2_chain_in_range (h : ℕ) (loc : LocationCapability)
    (i : Individual) (hi : needs_in_range i) :
    needs_in_range (Individual.update_safety h loc
      (Individual.update_stress h (Individual.update_income h
        (Individual.update_threat h loc i)))) := by
  obtain ⟨a1, a2, b1, b2, c1, c2, d1, d2, e1, e2, f1, f2, g1, g2, s1, s2, sa1,
    sa2, r1, r2, si1, si2, co1, co2, ac1, ac2, p1, p2⟩ := hi
  unfold needs_in_range
  refine ⟨?_, ?_, ?_, ?_, ?_, ?_, ?_, ?_, ?_, ?_, ?_, ?_, ?_, ?_, ?_, ?_, ?_,
    ?_, ?_, ?_, ?_, ?_, ?_, ?_, ?_, ?_, ?_, ?_⟩
  · simp only [update_safety_fields, update_stress_fields,
      update_income_fields, update_threat_fields]
    exact a1
  · simp only [update_safety_fields, update_stress_fields,
      update_income_fields, update_threat_fields]
    exact a2
  · simp only [update_safety_fields, update_stress_fields,
      update_income_fields, update_threat_fields]
    exact b1
  · simp only [update_safety_fields, update_stress_fields,
      update_income_fields, update_threat_fields]
    exact b2
  · simp only [update_safety_fields, update_stress_fields,
      update_income_fields, update_threat_fields]
    exact c1
  · simp only [update_safety_fields, update_stress_fields,
      update_income_fields, update_threat_fields]
    exact c2
  · simp only [update_safety_fields, update_stress_fields,
      update_income_fields, update_threat_fields]
    exact d1
  · simp only [update_safety_fields, update_stress_fields,
      update_income_fields, update_threat_fields]
    exact d2
  · simp only [update_safety_fields, update_stress_fields,
      update_income_fields, update_threat_fields]
    exact e1
  · simp only [update_safety_fields, update_stress_fields,
      update_income_fields, update_threat_fields]
    exact e2
  · simp only [update_safety_fields, update_stress_fields,
      update_income_fields]
    exact (update_threat_bounds h loc i).1
  · simp only [update_safety_fields, update_stress_fields,
      update_income_fields]
    exact (update_threat_bounds h loc i).2
  · simp only [update_safety_fields, update_stress_fields]
    exact (update_income_bounds h _).1
  · simp only [update_safety_fields, update_stress_fields]
    exact (update_income_bounds h _).2
  · simp only [update_safety_fields]
    exact (update_stress_bounds h _).1
  · simp only [update_safety_fields]
    exact (update_stress_bounds h _).2
  · exact (update_safety_bounds h loc _).1
  · exact (update_safety_bounds h loc _).2
  · simp only [update_safety_fields, update_stress_fields,
      update_income_fields, update_threat_fields]
    exact r1
  · simp only [update_safety_fields, update_stress_fields,
      update_income_fields, update_threat_fields]
    exact r2
  · simp only [update_safety_fields, update_stress_fields,
      update_income_fields, update_threat_fields]
    exact si1
  · simp only [update_safety_fields, update_stress_fields,
      update_income_fields, update_threat_fields]
    exact si2
  · simp only [update_safety_fields, update_stress_fields,
      update_income_fields, update_threat_fields]
    exact co1
  · simp only [update_safety_fields, update_stress_fields,
      update_income_fields, update_threat_fields]
    exact co2
  · simp only [update_safety_fields, update_stress_fields,
      update_income_fields, update_threat_fields]
    exact ac1
  · simp only [update_safety_fields, update_stress_fields,
      update_income_fields, update_threat_fields]
    exact ac2
  · simp only [update_safety_fields, update_stress_fields,
      update_income_fields, update_threat_fields]
    exact p1
  · simp only [update_safety_fields, update_stress_fields,
      update_income_fields, update_threat_fields]
    exact p2

theorem update_community_in_range (h : ℕ) (i : Individual)
    (hi : needs_in_range i) :
    needs_in_range (Individual.update_community h i) := by
  obtain ⟨a1, a2, b1, b2, c1, c2, d1, d2, e1, e2, f1, f2, g1, g2, s1, s2, sa1,
    sa2, r1, r2, si1, si2, co1, co2, ac1, ac2, p1, p2⟩ := hi
  exact ⟨a1, a2, b1, b2, c1, c2, d1, d2, e1, e2, f1, f2, g1, g2, s1, s2, sa1,
    sa2, r1, r2, si1, si2, rclamp_lo _ _ _,
    rclamp_hi _ _ _ (by norm_num [thresholds.NEED_MAX]),
    ac1, ac2, p1, p2⟩

theorem update_progression_in_range (h : ℕ) (i : Individual)
    (hi : needs_in_range i) :
    needs_in_range (Individual.update_progression h i) := by
  obtain ⟨a1, a2, b1, b2, c1, c2, d1, d2, e1, e2, f1, f2, g1, g2, s1, s2, sa1,
    sa2, r1, r2, si1, si2, co1, co2, ac1, ac2, p1, p2⟩ := hi
  exact ⟨a1, a2, b1, b2, c1, c2, d1, d2, e1, e2, f1, f2, g1, g2, s1, s2, sa1,
    sa2, r1, r2, si1, si2, co1, co2, ac1, ac2, rclamp_lo _ _ _,
    rclamp_hi _ _ _ (by norm_num [thresholds.NEED_MAX])⟩

/-- Range preservation passes through a gated (if-guarded) update step. -/
theorem ite_in_range (c : Prop) [Decidable c] (f : Individual → Individual)
    (x : Individual) (hx : needs_in_range x)
    (hf : needs_in_range x → needs_in_range (f x)) :
    needs_in_range (if c then f x else x) := by
  split
  · exact hf hx
  · exact hx


/-- The decay/growth step never changes an agent's identity, location
references, role, status or timestamps. -/
theorem update_needs_meta (h : ℕ) (loc : LocationCapability) (i : Individual) :
    (Individual.update_needs h loc i).status = i.status ∧
    (Individual.update_needs h loc i).current_location_id =
      i.current_location_id ∧
    (Individual.update_needs h loc i).id = i.id ∧
    (Individual.update_needs h loc i).home_id = i.home_id ∧
    (Individual.update_needs h loc i).workplace_id = i.workplace_id ∧
    (Individual.update_needs h loc i).last_update_hour = i.last_update_hour := by
  unfold Individual.update_needs
  refine ⟨?_, ?_, ?_, ?_, ?_, ?_⟩ <;>
    (dsimp only
     split_ifs <;>
      simp only [update_food_water_fields, update_environment_fields,
        update_intimacy_fields, update_rest_fields, update_waste_fields,
        update_threat_fields, update_income_fields, update_stress_fields,
        update_safety_fields, update_community_fields,
        update_progression_fields])

/-- Entering an action state never changes the agent's current location. -/
theorem perform_action_location (i : Individual) (a : IndividualAction)
    (c : ℕ) :
    (perform_action i a c).current_location_id = i.current_location_id := by
  cases a <;> rfl

/-- Handling a pressing need never changes the agent's current location:
acting in place keeps it, and starting a journey only sets the InTransit
status (the location is updated at arrival). -/
theorem handle_pressing_need_location (i : Individual) (need : FundamentalNeed)
    (buildings : List Building) (locations : List LocationCapability)
    (c : ℕ) (j : Individual)
    (h : handle_pressing_need i need buildings locations c = Except.ok j) :
    j.current_location_id = i.current_location_id := by
  unfold handle_pressing_need at h
  cases hfb : buildings.find? (fun b => b.id = i.current_location_id) with
  | none =>
    rw [hfb] at h
    dsimp only at h
    cases h
  | some cb =>
    rw [hfb] at h
    dsimp only at h
    cases hbest : find_best_location_for_need i need buildings locations
        cb.location_x cb.location_y with
    | none =>
      rw [hbest] at h
      dsimp only at h
      cases Except.ok.inj h
      rfl
    | some pr =>
      rw [hbest] at h
      dsimp only at h
      rcases pr with ⟨tid, score⟩
      by_cases heq : tid = i.current_location_id
      · rw [if_pos heq] at h
        cases hact : determine_action_for_need i need tid with
        | some a =>
          rw [hact] at h
          dsimp only at h
          cases Except.ok.inj h
          exact perform_action_location i a c
        | none =>
          rw [hact] at h
          dsimp only at h
          cases Except.ok.inj h
          rfl
      · rw [if_neg heq] at h
        cases hft : buildings.find? (fun b => b.id = tid) with
        | none =>
          rw [hft] at h
          dsimp only at h
          cases h
        | some tb =>
          rw [hft] at h
          dsimp only at h
          cases Except.ok.inj h
          rfl


/-- A tick applied to an idle agent never changes its current location and
never emits a movement event: arrivals are applied only from InTransit. -/
theorem tick_idle_preserves_location (i : Individual)
    (hst : i.status = IndividualStatus.Idle) (cur : ℕ)
    (bs : List Building) (ls : List LocationCapability) (j : Individual)
    (ev : Option MovementEvent)
    (h : update_individual_needs cur bs ls i = Except.ok (j, ev)) :
    j.current_location_id = i.current_location_id ∧ ev = none := by
  unfold update_individual_needs at h
  by_cases h0 : cur - i.last_update_hour = 0
  · rw [if_pos h0] at h
    have hinj := Except.ok.inj h
    injection hinj with h1 h2
    exact ⟨h1 ▸ rfl, h2.symm⟩
  · rw [if_neg h0] at h
    cases hloc : ls.find? (fun l => l.building_id = i.current_location_id) with
    | none =>
      rw [hloc] at h
      dsimp only at h
      cases h
    | some lc =>
      rw [hloc] at h
      dsimp only at h
      have hu := update_needs_meta (cur - i.last_update_hour) lc i
      have hexp : check_status_expiry cur
          (Individual.update_needs (cur - i.last_update_hour) lc i) =
          (Individual.update_needs (cur - i.last_update_hour) lc i, none) := by
        unfold check_status_expiry
        rw [hu.1, hst]
      rw [hexp] at h
      dsimp only at h
      rw [hu.1, hst] at h
      dsimp only at h
      cases hpn : (Individual.update_needs
          (cur - i.last_update_hour) lc i).get_most_pressing_need with
      | none =>
        rw [hpn] at h
        dsimp only at h
        have hinj := Except.ok.inj h
        injection hinj with h1 h2
        refine ⟨?_, h2.symm⟩
        rw [← h1]
        exact hu.2.1
      | some pr =>
        rcases pr with ⟨need, pri⟩
        rw [hpn] at h
        dsimp only at h
        cases hh : handle_pressing_need (Individual.update_needs
            (cur - i.last_update_hour) lc i) need bs ls cur with
        | error e =>
          rw [hh] at h
          dsimp only at h
          cases h
        | ok i2 =>
          rw [hh] at h
          dsimp only at h
          have hinj := Except.ok.inj h
          injection hinj with h1 h2
          refine ⟨?_, h2.symm⟩
          rw [← h1]
          exact (handle_pressing_need_location _ _ _ _ _ _ hh).trans hu.2.1

/-! Claim theorems. -/

/-- C10: on an InTransit arrival (status InTransit with target T, expiry
reached), the status-expiry step of the per-agent tick emits a
MovementEvent whose from_location_id and to_location_id both equal the
destination T, because the source passes the already-updated current
location as the event's origin. -/
theorem C10_arrival_event_endpoints (cur T H : ℕ) (tb : Option ℕ)
    (i : Individual)
    (hst : i.status = IndividualStatus.InTransit ⟨H, some T, tb⟩)
    (hH : H ≤ cur) :
    ∃ ev, (check_status_expiry cur i).2 = some ev ∧
      ev.from_location_id = T ∧ ev.to_location_id = T := by
  unfold check_status_expiry
  rw [hst]
  dsimp only
  rw [if_pos hH]
  exact ⟨_, rfl, rfl, rfl⟩

/-- C10 (witness): `agentC6` arriving at location 2 at hour 5 produces a
movement event with both endpoints 2. -/
theorem C10_arrival_event_endpoints_witness :
    ∃ ev, (check_status_expiry 5 agentC6).2 = some ev ∧
      ev.from_location_id = 2 ∧ ev.to_location_id = 2 :=
  C10_arrival_event_endpoints 5 2 5 none agentC6 rfl (by norm_num)

/-- C1 (counterexample): `baseAgent` starts with every scalar in range
(rest 80), yet entering the Sleeping action state adds the raw +64 rest
delta with no clamp, leaving rest at 144 > 100. -/
theorem C1_counterexample :
    needs_in_range baseAgent ∧
    (perform_action baseAgent IndividualAction.Sleep 0).rest = 144 ∧
    ¬ ((perform_action baseAgent IndividualAction.Sleep 0).rest ≤
        thresholds.NEED_MAX) := by
  with_unfolding_all decide

/-- C1 (amended): the decay/growth step `update_needs` keeps every need
scalar in range — scalars other than income in [0,100], income in
[0, INCOME_MAX], community in [0, NEED_MAX/3] — whenever they start in
range (mutated scalars are clamped at the point of mutation, untouched ones
keep their value); the action mutations of `perform_action` and
`handle_pressing_need`, by contrast, apply raw deltas without clamping
(witness the counterexample), except the social-interaction cap. -/
theorem C1_update_needs_in_range (hours : ℕ) (loc : LocationCapability)
    (i : Individual) (hi : needs_in_range i) :
    needs_in_range (Individual.update_needs hours loc i) := by
  unfold Individual.update_needs
  have h1 := update_food_water_in_range hours i hi
  have h2 := update_environment_in_range hours loc _ h1
  have h3 := update_intimacy_in_range hours _ h2
  have h4 := update_rest_in_range hours _ h3
  have h5 := update_waste_in_range hours _ h4
  refine ite_in_range _ (Individual.update_progression hours) _ ?_
    (fun hx => update_progression_in_range hours _ hx)
  refine ite_in_range _ (Individual.update_community hours) _ ?_
    (fun hx => update_community_in_range hours _ hx)
  refine ite_in_range _
    (fun x => Individual.update_safety hours loc (Individual.update_stress hours
      (Individual.update_income hours (Individual.update_threat hours loc x))))
    _ h5 (fun hx => level2_chain_in_range hours loc _ hx)

/-- C1 (witness): one decay hour applied to `baseAgent` at a neutral
location keeps every scalar in range. -/
theorem C1_update_needs_in_range_witness :
    needs_in_range (Individual.update_needs 1 capPlain baseAgent) :=
  C1_update_needs_in_range 1 capPlain baseAgent (by with_unfolding_all decide)

/-- C2 (counterexample): for the agent `agentC2` with income 0, safety 100,
threat 0 and stress 0, the code's Tier-2 adequacy is 100, while the claimed
formula `(income + (100 - threat) + (100 - stress) + safety) / 4` gives 75:
the source averages safety twice and ignores income. -/
theorem C2_counterexample :
    agentC2.get_level_2_adequacy = 100 ∧
    (agentC2.income + (100 - agentC2.threat) + (100 - agentC2.stress) +
      agentC2.safety) / 4 = 75 ∧
    (100 : ℚ) ≠ 75 := by
  with_unfolding_all decide

/-- C2 (amended): the Tier-2 adequacy score equals
`(safety + (100 - threat) + safety + (100 - stress)) / 4`: the mean of the
four summands threat-inverted, stress-inverted and safety twice; income is
not read. -/
theorem C2_level2_adequacy_formula (i : Individual) :
    i.get_level_2_adequacy =
      (i.safety + (100 - i.threat) + i.safety + (100 - i.stress)) / 4 := rfl

/-- C8: Tier 1 is active for every agent, and for `1 < n ≤ 5`, if tier `n`
is active then tier `n - 1` is active. -/
theorem C8_tier_gating_monotone (i : Individual) :
    i.is_need_level_active 1 = true ∧
    ∀ n : ℕ, 1 < n → n ≤ 5 → i.is_need_level_active n = true →
      i.is_need_level_active (n - 1) = true := by
  refine ⟨by rw [Individual.is_need_level_active], ?_⟩
  intro n h1 h5 hact
  interval_cases n
  · show i.is_need_level_active 1 = true
    rw [Individual.is_need_level_active]
  · show i.is_need_level_active 2 = true
    rw [Individual.is_need_level_active] at hact
    simp only [Bool.and_eq_true] at hact
    exact hact.1
  · show i.is_need_level_active 3 = true
    rw [Individual.is_need_level_active] at hact
    simp only [Bool.and_eq_true] at hact
    exact hact.1
  · show i.is_need_level_active 4 = true
    rw [Individual.is_need_level_active] at hact
    simp only [Bool.and_eq_true] at hact
    exact hact.1

/-- C8 (witness): instantiated on `baseAgent` at `n = 3`, whose tier 3 is
active, concluding tier 2 is active. -/
theorem C8_tier_gating_monotone_witness :
    baseAgent.is_need_level_active 2 = true :=
  (C8_tier_gating_monotone baseAgent).2 3 (by norm_num) (by norm_num)
    (by with_unfolding_all decide)

/-- C9 (counterexample): `configure_scheduler` called with batch size 0,
interval 0 and budget 0 on an initialized scheduler succeeds and stores the
zeros, contradicting the claimed rejection. -/
theorem C9_counterexample :
    configure_scheduler (some cfgDefault) 0 0 0 = Except.ok cfgZero ∧
    ¬ (0 < cfgZero.batch_size) :=
  ⟨rfl, by decide⟩

/-- C9 (amended): `configure_scheduler` performs no validation: with an
initialized scheduler it stores exactly the given batch size, run interval
and processing budget (zeros included) and succeeds; only an uninitialized
scheduler is an error. -/
theorem C9_configure_no_validation (c : SchedulerConfig)
    (batch_size run_interval_ms max_processing_time_ms : ℕ) :
    (configure_scheduler (some c) batch_size run_interval_ms
        max_processing_time_ms).isOk = true ∧
    ∀ c2, configure_scheduler (some c) batch_size run_interval_ms
        max_processing_time_ms = Except.ok c2 →
      c2.batch_size = batch_size ∧ c2.run_interval_ms = run_interval_ms ∧
      c2.max_processing_time_ms = max_processing_time_ms ∧
      c2.enabled = c.enabled ∧ c2.id = c.id ∧
      c2.last_run_ms = c.last_run_ms ∧ c2.next_run_ms = c.next_run_ms := by
  refine ⟨rfl, ?_⟩
  intro c2 h
  cases Except.ok.inj h
  exact ⟨rfl, rfl, rfl, rfl, rfl, rfl, rfl⟩

/-- C3 (counterexample): for `agentC3` (food 16, rest 4), both
`(Consumption, 672)` and `(Rest, 672)` qualify with equal urgency 672 > 60,
and `get_most_pressing_need` returns `(Rest, 672)` although Consumption has
the higher static priority weight (8 over 7): urgency ties are won by the
pair collected last, not by the static priority ranking. -/
theorem C3_counterexample :
    agentC3.get_most_pressing_need = some (FundamentalNeed.Rest, 672) ∧
    (FundamentalNeed.Consumption, 672) ∈ agentC3.pressing_candidates ∧
    thresholds.NEED_URGENT < (672 : ℚ) ∧
    FundamentalNeed.Rest ≠ FundamentalNeed.Consumption ∧
    priority_weights.REST_CRITICAL < priority_weights.FOOD_CRITICAL := by
  with_unfolding_all decide

/-- C3 (amended): `get_most_pressing_need` collects the qualifying
(need, urgency) pairs in a fixed order (waste, consumption, rest,
environment, safety-as-environment, connection), discards any pair with
urgency ≤ 60, and returns a pair with maximal urgency; on urgency ties the
pair collected last (the lower static rank) wins; it returns none iff no
pair survives the urgency filter. -/
theorem C3_pressing_need_selection (i : Individual) (p : FundamentalNeed × ℚ) :
    (i.get_most_pressing_need = none ↔
      i.pressing_candidates.filter (fun q => thresholds.NEED_URGENT < q.2) = []) ∧
    (i.get_most_pressing_need = some p →
      ∃ l1 l2,
        i.pressing_candidates.filter (fun q => thresholds.NEED_URGENT < q.2) =
          l1 ++ p :: l2 ∧
        (∀ q ∈ i.pressing_candidates.filter
            (fun q => thresholds.NEED_URGENT < q.2), q.2 ≤ p.2) ∧
        ∀ q ∈ l2, q.2 < p.2) := by
  constructor
  · unfold Individual.get_most_pressing_need
    exact maxByLast_eq_none _ _
  · intro h
    unfold Individual.get_most_pressing_need at h
    obtain ⟨⟨l1, l2, heq, hlt⟩, hub⟩ := maxByLast_spec _ _ _ h
    exact ⟨l1, l2, heq, hub, hlt⟩

/-- C3 (witness): on `agentC3` the selector returns `(Rest, 672)`, which
sits last in the qualifying list, bounds every qualifying urgency from
above, and strictly dominates everything after it. -/
theorem C3_pressing_need_selection_witness :
    ∃ l1 l2,
      agentC3.pressing_candidates.filter (fun q => thresholds.NEED_URGENT < q.2) =
        l1 ++ (FundamentalNeed.Rest, (672 : ℚ)) :: l2 ∧
      (∀ q ∈ agentC3.pressing_candidates.filter
          (fun q => thresholds.NEED_URGENT < q.2),
        q.2 ≤ (FundamentalNeed.Rest, (672 : ℚ)).2) ∧
      ∀ q ∈ l2, q.2 < (FundamentalNeed.Rest, (672 : ℚ)).2 :=
  (C3_pressing_need_selection agentC3 (FundamentalNeed.Rest, 672)).2
    (by with_unfolding_all decide)

/-- C5 (counterexample): with two identical facilities-providing candidates
of ids 1 and 2 and equal score 0, `find_best_location_for_need` returns
building 2, not the lowest id 1: score ties are won by the candidate listed
last, not by lowest location id. -/
theorem C5_counterexample :
    location_candidates baseAgent FundamentalNeed.Waste [bldA, bldB]
        [capA, capB] 0 0 = [(1, 0, 1), (2, 0, 1)] ∧
    find_best_location_for_need baseAgent FundamentalNeed.Waste [bldA, bldB]
        [capA, capB] 0 0 = some (2, 0) ∧
    (2 : ℕ) ≠ 1 := by
  with_unfolding_all decide

/-- C5 (amended): among the candidates that pass filtering,
`find_best_location_for_need` returns a candidate with maximal score; when
several candidates share the maximal score it returns the one listed last
in the catalog order (not the lowest id); it returns none iff no candidate
qualifies. -/
theorem C5_location_selection (ind : Individual) (need : FundamentalNeed)
    (buildings : List Building) (locations : List LocationCapability)
    (cx cy : ℚ) (r : ℕ × ℚ) :
    (find_best_location_for_need ind need buildings locations cx cy = none ↔
      location_candidates ind need buildings locations cx cy = []) ∧
    (find_best_location_for_need ind need buildings locations cx cy = some r →
      ∃ c l1 l2,
        location_candidates ind need buildings locations cx cy = l1 ++ c :: l2 ∧
        c.1 = r.1 ∧ c.2.1 = r.2 ∧
        (∀ y ∈ location_candidates ind need buildings locations cx cy,
          y.2.1 ≤ c.2.1) ∧
        ∀ y ∈ l2, y.2.1 < c.2.1) := by
  constructor
  · unfold find_best_location_for_need
    rw [Option.map_eq_none']
    exact maxByLast_eq_none _ _
  · intro h
    unfold find_best_location_for_need at h
    obtain ⟨c, hc, hmap⟩ := Option.map_eq_some'.mp h
    obtain ⟨⟨l1, l2, heq, hlt⟩, hub⟩ := maxByLast_spec _ _ _ hc
    refine ⟨c, l1, l2, heq, ?_, ?_, hub, hlt⟩
    · rw [← hmap]
    · rw [← hmap]

/-- C5 (witness): on the two-candidate tie the returned pair `(2, 0)` is
realized by the last candidate, which has maximal score. -/
theorem C5_location_selection_witness :
    ∃ c l1 l2,
      location_candidates baseAgent FundamentalNeed.Waste [bldA, bldB]
          [capA, capB] 0 0 = l1 ++ c :: l2 ∧
      c.1 = ((2 : ℕ), (0 : ℚ)).1 ∧ c.2.1 = ((2 : ℕ), (0 : ℚ)).2 ∧
      (∀ y ∈ location_candidates baseAgent FundamentalNeed.Waste [bldA, bldB]
          [capA, capB] 0 0, y.2.1 ≤ c.2.1) ∧
      ∀ y ∈ l2, y.2.1 < c.2.1 :=
  (C5_location_selection baseAgent FundamentalNeed.Waste [bldA, bldB]
      [capA, capB] 0 0 (2, 0)).2 (by with_unfolding_all decide)

/-- C4: whenever `find_best_location_for_need` returns a building id, that
id comes from a catalog entry whose building is strictly under capacity and
whose capability row satisfies the requested need for this agent
(Environment: positive quality or healthcare or own rest-providing home;
Consumption: food; Connection: social or culture; Rest: rest and own home;
Waste: facilities); and when the catalog pairs each building with its own
capability row, that row belongs to the returned building. -/
theorem C4_matcher_exclusion (ind : Individual) (need : FundamentalNeed)
    (buildings : List Building) (locations : List LocationCapability)
    (cx cy : ℚ) (r : ℕ × ℚ)
    (h : find_best_location_for_need ind need buildings locations cx cy = some r) :
    ∃ b l, (b, l) ∈ buildings.zip locations ∧ b.id = r.1 ∧
      b.current_occupants < b.max_capacity ∧ can_fulfill ind need b l = true ∧
      ((∀ p ∈ buildings.zip locations, p.2.building_id = p.1.id) →
        l.building_id = r.1) := by
  unfold find_best_location_for_need at h
  obtain ⟨c, hc, hmap⟩ := Option.map_eq_some'.mp h
  have hmem : c ∈ location_candidates ind need buildings locations cx cy := by
    obtain ⟨⟨l1, l2, heq, _⟩, _⟩ := maxByLast_spec _ _ _ hc
    rw [heq]
    exact List.mem_append_right _ (List.mem_cons_self _ _)
  unfold location_candidates at hmem
  obtain ⟨bl, hbl, hf⟩ := List.mem_filterMap.mp hmem
  rcases bl with ⟨b, l⟩
  dsimp only at hf
  split at hf
  · exact absurd hf (by simp)
  · split at hf
    · exact absurd hf (by simp)
    · rename_i h1 h2
      have hc2 := Option.some.inj hf
      refine ⟨b, l, hbl, ?_, lt_of_not_le h1, not_not.mp h2, ?_⟩
      · rw [← hmap, ← hc2]
      · intro halign
        rw [← hmap, ← hc2]
        exact halign (b, l) hbl

/-- C4 (witness): with the single under-capacity facilities candidate, the
matcher returns building 1, which is under capacity and provides
facilities. -/
theorem C4_matcher_exclusion_witness :
    ∃ b l, (b, l) ∈ ([bldA] : List Building).zip [capA] ∧
      b.id = ((1 : ℕ), (0 : ℚ)).1 ∧
      b.current_occupants < b.max_capacity ∧
      can_fulfill baseAgent FundamentalNeed.Waste b l = true ∧
      ((∀ p ∈ ([bldA] : List Building).zip [capA], p.2.building_id = p.1.id) →
        l.building_id = ((1 : ℕ), (0 : ℚ)).1) :=
  C4_matcher_exclusion baseAgent FundamentalNeed.Waste [bldA] [capA] 0 0 (1, 0)
    (by with_unfolding_all decide)

/-- Under a budget never exceeded mid-batch, the loop counts exactly the
successfully processed worlds in `worlds_processed` and the failed ones in
`errors_encountered`. -/
theorem run_batch_loop_counts (budget : ℕ) (elapsed : ℕ → ℕ)
    (hb : ∀ k, elapsed k ≤ budget) (l : List (GameWorld × SubsystemOutcome)) :
    ∀ (k : ℕ) (stats : ProcessingStats),
      (run_batch_loop budget elapsed k l stats).worlds_processed =
        stats.worlds_processed +
          (l.filter (fun wo => (process_single_world wo.1 wo.2).isOk)).length ∧
      (run_batch_loop budget elapsed k l stats).errors_encountered =
        stats.errors_encountered +
          (l.filter (fun wo => !(process_single_world wo.1 wo.2).isOk)).length := by
  induction l with
  | nil =>
    intro k stats
    simp [run_batch_loop]
  | cons wo rest ih =>
    intro k stats
    rcases wo with ⟨w, o⟩
    rw [run_batch_loop, if_neg (not_lt.mpr (hb k))]
    obtain ⟨hw, he⟩ := ih (k + 1) (accumulate_world stats w o)
    cases hp : process_single_world w o with
    | ok ws =>
      refine ⟨?_, ?_⟩
      · rw [hw]
        rw [List.filter_cons_of_pos (by simp [hp, Except.isOk, Except.toBool])]
        simp only [accumulate_world, hp, List.length_cons]
        omega
      · rw [he]
        rw [List.filter_cons_of_neg (by simp [hp, Except.isOk, Except.toBool])]
        simp only [accumulate_world, hp]
    | error e =>
      refine ⟨?_, ?_⟩
      · rw [hw]
        rw [List.filter_cons_of_neg (by simp [hp, Except.isOk, Except.toBool])]
        simp only [accumulate_world, hp]
      · rw [he]
        rw [List.filter_cons_of_pos (by simp [hp, Except.isOk, Except.toBool])]
        simp only [accumulate_world, hp, List.length_cons]
        omega

/-- C7 (counterexample): with two due worlds where the first fails during
political-event generation and a never-exceeded budget, the batch reports
`errors_encountered = 0` (not 1, as claimed) while both worlds count as
processed: `process_single_world` swallows the political failure. -/
theorem C7_counterexample :
    (run_world_simulation_batch cfgDefault
      [(worldA, outcomePolFail), (worldB, outcomeOk)]
      (fun _ => 0)).errors_encountered = 0 ∧
    (run_world_simulation_batch cfgDefault
      [(worldA, outcomePolFail), (worldB, outcomeOk)]
      (fun _ => 0)).worlds_processed = 2 ∧
    (0 : ℕ) ≠ 1 := by
  with_unfolding_all decide

/-- C7 (amended): with the scheduler enabled and the wall-clock budget never
exceeded, `worlds_processed` counts exactly the batch worlds whose
processing succeeded and `errors_encountered` exactly those whose
processing failed (so a one-world failure leaves the other worlds
processed); and one world's processing fails iff its world-time advance
fails with nonzero hours to advance, so a political-event-generation
failure is swallowed: the world still counts as processed and no error is
counted. -/
theorem C7_batch_failure_isolation (config : SchedulerConfig)
    (worlds : List (GameWorld × SubsystemOutcome)) (elapsed : ℕ → ℕ)
    (hen : config.enabled = true)
    (hb : ∀ k, elapsed k ≤ config.max_processing_time_ms) :
    ((run_world_simulation_batch config worlds elapsed).worlds_processed =
      ((worlds.take config.batch_size).filter
        (fun wo => (process_single_world wo.1 wo.2).isOk)).length ∧
     (run_world_simulation_batch config worlds elapsed).errors_encountered =
      ((worlds.take config.batch_size).filter
        (fun wo => !(process_single_world wo.1 wo.2).isOk)).length) ∧
    ∀ w o, (process_single_world w o).isOk = true ↔
      (hours_to_advance w.narrative_speed = 0 ∨ o.advance_time_ok = true) := by
  constructor
  · unfold run_world_simulation_batch
    rw [if_neg (by simp [hen])]
    obtain ⟨hw, he⟩ := run_batch_loop_counts config.max_processing_time_ms
      elapsed hb (worlds.take config.batch_size) 0 ProcessingStats.init
    rw [hw, he]
    constructor <;> simp [ProcessingStats.init]
  · intro w o
    by_cases h0 : 0 < hours_to_advance w.narrative_speed ∧
        o.advance_time_ok = false
    · have hpe : process_single_world w o =
          Except.error "advance_world_time failed" := by
        unfold process_single_world
        rw [if_pos h0]
      rw [hpe]
      simp only [Except.isOk, Except.toBool]
      constructor
      · intro hfalse
        cases hfalse
      · rintro (hz | hok)
        · exact absurd hz (by omega)
        · rw [hok] at h0
          exact absurd h0.2 (by simp)
    · have hpo : process_single_world w o = Except.ok
          (process_single_world_stats o) := by
        unfold process_single_world
        rw [if_neg h0]
      rw [hpo]
      simp only [Except.isOk, Except.toBool]
      refine ⟨fun _ => ?_, fun _ => trivial⟩
      rcases Nat.eq_zero_or_pos (hours_to_advance w.narrative_speed) with hz | hpos
      · exact Or.inl hz
      · refine Or.inr ?_
        by_cases hAok : o.advance_time_ok = true
        · exact hAok
        · exact absurd ⟨hpos, Bool.not_eq_true _ ▸ hAok⟩ h0

/-- C7 (witness): in a batch of two worlds where the first world's
time-advance fails and the second succeeds, exactly one error is counted
and exactly one world (the second) is processed. -/
theorem C7_batch_failure_isolation_witness :
    ((run_world_simulation_batch cfgDefault
        [(worldA, outcomeAdvFail), (worldB, outcomeOk)]
        (fun _ => 0)).worlds_processed =
      (([(worldA, outcomeAdvFail), (worldB, outcomeOk)].take
          cfgDefault.batch_size).filter
        (fun wo => (process_single_world wo.1 wo.2).isOk)).length ∧
     (run_world_simulation_batch cfgDefault
        [(worldA, outcomeAdvFail), (worldB, outcomeOk)]
        (fun _ => 0)).errors_encountered =
      (([(worldA, outcomeAdvFail), (worldB, outcomeOk)].take
          cfgDefault.batch_size).filter
        (fun wo => !(process_single_world wo.1 wo.2).isOk)).length) ∧
    ∀ w o, (process_single_world w o).isOk = true ↔
      (hours_to_advance w.narrative_speed = 0 ∨ o.advance_time_ok = true) :=
  C7_batch_failure_isolation cfgDefault
    [(worldA, outcomeAdvFail), (worldB, outcomeOk)] (fun _ => 0) rfl
    (fun _ => by norm_num [cfgDefault])

/-- C6: an agent InTransit to target T with arrival hour H, ticked at any
hour ≥ H (with time actually elapsed, the current location's capability row
present, and no pressing need firing after the decay step), ends Idle with
its current location updated to T and a movement event emitted; and the
location update is applied exactly once: any further tick of the now-idle
agent that succeeds leaves the location at T and emits no movement event. -/
theorem C6_transit_roundtrip (cur T H : ℕ) (tb : Option ℕ)
    (buildings : List Building) (locations : List LocationCapability)
    (loc : LocationCapability) (i : Individual)
    (hst : i.status = IndividualStatus.InTransit ⟨H, some T, tb⟩)
    (hH : H ≤ cur) (hlu : i.last_update_hour < cur)
    (hloc : locations.find? (fun l => l.building_id = i.current_location_id) =
      some loc)
    (hpn : Individual.get_most_pressing_need
      { Individual.update_needs (cur - i.last_update_hour) loc i with
        current_location_id := T, status := IndividualStatus.Idle } = none) :
    ∃ j ev, update_individual_needs cur buildings locations i =
        Except.ok (j, some ev) ∧
      j.status = IndividualStatus.Idle ∧ j.current_location_id = T ∧
      ev.to_location_id = T ∧
      ∀ cur2 bs2 ls2 j2 ev2,
        update_individual_needs cur2 bs2 ls2 j = Except.ok (j2, ev2) →
        j2.current_location_id = T ∧ ev2 = none := by
  have h0 : ¬ (cur - i.last_update_hour = 0) := by omega
  unfold update_individual_needs
  rw [if_neg h0, hloc]
  dsimp only
  have hu := update_needs_meta (cur - i.last_update_hour) loc i
  have hexp : check_status_expiry cur
      (Individual.update_needs (cur - i.last_update_hour) loc i) =
      ({ Individual.update_needs (cur - i.last_update_hour) loc i with
          current_location_id := T, status := IndividualStatus.Idle },
        some (log_movement
          (Individual.update_needs (cur - i.last_update_hour) loc i).id
          T T cur)) := by
    unfold check_status_expiry
    rw [hu.1, hst]
    dsimp only
    rw [if_pos hH]
  rw [hexp]
  dsimp only
  rw [hpn]
  dsimp only
  refine ⟨_, _, rfl, rfl, rfl, rfl, ?_⟩
  intro cur2 bs2 ls2 j2 ev2 h2
  exact tick_idle_preserves_location _ rfl cur2 bs2 ls2 j2 ev2 h2

/-- C6 (witness): `agentC6` (InTransit to location 2, arriving at hour 5)
ticked at hour 5 with its location row present arrives exactly once. -/
theorem C6_transit_roundtrip_witness :
    ∃ j ev, update_individual_needs 5 [] [capPlain] agentC6 =
        Except.ok (j, some ev) ∧
      j.status = IndividualStatus.Idle ∧ j.current_location_id = 2 ∧
      ev.to_location_id = 2 ∧
      ∀ cur2 bs2 ls2 j2 ev2,
        update_individual_needs cur2 bs2 ls2 j = Except.ok (j2, ev2) →
        j2.current_location_id = 2 ∧ ev2 = none :=
  C6_transit_roundtrip 5 2 5 none [] [capPlain] capPlain agentC6 rfl
    (by norm_num) (by norm_num [agentC6, baseAgent]) (by rfl)
    (by with_unfolding_all decide)

end EnoSim
